import Mathlib

/-!
ECO-TRACKER-APP: the emissions calculation module

A shallow embedding of `src/utils/calculations.js` and of the badge progress
functions of `src/components/Badges.js`.

Conventions of the embedding:

* finite JavaScript numbers are exact rationals (`ℚ`); `NaN` is kept as a
  separate value where the code can produce it;
* a JavaScript object with numeric own properties is an association list
  `List (String × ℚ)`, in insertion order; reading a property that is not an
  own property falls through to `Object.prototype`;
* a point in time is its ECMAScript time value, an integer number of
  milliseconds since the epoch; the local time zone is a fixed offset `tz`
  (milliseconds), and the clock read by `new Date()` is the argument `now`.
-/

namespace EcoTracker

/-! ## JavaScript values used by the module -/

/-- Result of an arithmetic expression: a finite number or `NaN`. -/
inductive JSNumber where
  | real (q : ℚ)
  | nan
  deriving DecidableEq

/-- Result of reading `obj[key]` on an object whose own properties are numbers. -/
inductive JSValue where
  /-- an own property, a number -/
  | number (q : ℚ)
  /-- a member inherited from `Object.prototype` (a function, or the prototype itself) -/
  | object
  /-- no such property -/
  | undefined
  deriving DecidableEq

/-- A plain object with numeric own properties, in insertion order. -/
abbrev JSObject := List (String × ℚ)

/-- Property names every plain object inherits from `Object.prototype`. -/
def objectPrototypeKeys : List String :=
  ["constructor", "__defineGetter__", "__defineSetter__", "hasOwnProperty",
   "__lookupGetter__", "__lookupSetter__", "isPrototypeOf", "propertyIsEnumerable",
   "toString", "valueOf", "__proto__", "toLocaleString"]

/-- The test `obj.hasOwnProperty(key)`. -/
def hasOwnProperty (obj : JSObject) (key : String) : Bool :=
  (obj.lookup key).isSome

/-- The read `obj[key]`: own properties first, then the prototype. -/
def getProperty (obj : JSObject) (key : String) : JSValue :=
  match obj.lookup key with
  | some q => .number q
  | none => if key ∈ objectPrototypeKeys then .object else .undefined

/-- The expression `v || 0`: `v` when it is truthy, else `0`. -/
def orZero : JSValue → JSValue
  | .number q => if q = 0 then .number 0 else .number q
  | .object => .object
  | .undefined => .number 0

/-- The expression `v * x` for a number `x`: a non-numeric `v` converts to `NaN`. -/
def times : JSValue → ℚ → JSNumber
  | .number q, x => .real (q * x)
  | .object, _ => .nan
  | .undefined, _ => .nan

/-! ## Emission factors and `calculateEmissions` -/

/-- The object `EMISSION_FACTORS.transport`. -/
def EMISSION_FACTORS.transport : JSObject :=
  [("car", 0.192), ("bus", 0.089), ("train", 0.041), ("plane", 0.255),
   ("motorcycle", 0.113), ("bicycle", 0), ("walking", 0), ("electric_car", 0.053)]

/-- The object `EMISSION_FACTORS.food`. -/
def EMISSION_FACTORS.food : JSObject :=
  [("beef", 27.0), ("lamb", 21.1), ("cheese", 13.5), ("pork", 12.1), ("chicken", 6.9),
   ("fish", 5.1), ("eggs", 4.2), ("rice", 2.7), ("tofu", 2.0), ("vegetables", 2.0),
   ("fruits", 1.1), ("nuts", 0.3)]

/-- The object `EMISSION_FACTORS.energy`. -/
def EMISSION_FACTORS.energy : JSObject :=
  [("electricity", 0.0004), ("gas", 0.0002), ("heating_oil", 0.0003)]

/-- The object `EMISSION_FACTORS.lifestyle`. -/
def EMISSION_FACTORS.lifestyle : JSObject :=
  [("clothing", 33.4), ("electronics", 50.0), ("plastic_bag", 0.006), ("paper", 0.001)]

/-- The table `EMISSION_FACTORS`: category, then type, to kg CO2 per unit. -/
def EMISSION_FACTORS : List (String × JSObject) :=
  [("transport", EMISSION_FACTORS.transport), ("food", EMISSION_FACTORS.food),
   ("energy", EMISSION_FACTORS.energy), ("lifestyle", EMISSION_FACTORS.lifestyle)]

/-- The entry of the table for a (category, type) pair, when it has one. -/
def tableFactor (category type : String) : Option ℚ :=
  (EMISSION_FACTORS.lookup category).bind (fun types => types.lookup type)

/-- The second argument of `calculateEmissions`; `category` is `none` when the
field is `null` or absent. -/
structure ActivityData where
  type : String
  category : Option String
  amount : ℚ
  unit : Option String

def calculateTransportEmissions (transportType : String) (distance : ℚ) : JSNumber :=
  let factor := orZero (getProperty EMISSION_FACTORS.transport transportType)
  times factor distance

def calculateFoodEmissions (foodType : String) (weight : ℚ) : JSNumber :=
  let factor := orZero (getProperty EMISSION_FACTORS.food foodType)
  times factor weight

def calculateEnergyEmissions (energyType : String) (consumption : ℚ) : JSNumber :=
  let factor := orZero (getProperty EMISSION_FACTORS.energy energyType)
  times factor consumption

def calculateLifestyleEmissions (itemType : String) (quantity : ℚ) : JSNumber :=
  let factor := orZero (getProperty EMISSION_FACTORS.lifestyle itemType)
  times factor quantity

/-- The function `calculateEmissions(activity, data)`; the first argument is unused. -/
def calculateEmissions (_activity : String) (data : ActivityData) : JSNumber :=
  match data.category with
  | some "transport" => calculateTransportEmissions data.type data.amount
  | some "food" => calculateFoodEmissions data.type data.amount
  | some "energy" => calculateEnergyEmissions data.type data.amount
  | some "lifestyle" => calculateLifestyleEmissions data.type data.amount
  | _ => .real 0

/-! ## Time values and the local calendar

The day, year and month arithmetic of ECMAScript's `Date`, on integer time
values. Integer division and remainder round towards minus infinity for the
positive divisors used here, as `floor` and `modulo` do in the standard. -/

def msPerDay : Int := 86400000

/-- The largest time value a `Date` can hold, in either direction. -/
def maxTimeValue : Int := 8640000000000000

def Day (t : Int) : Int := t / msPerDay

def TimeWithinDay (t : Int) : Int := t % msPerDay

def DaysInYear (y : Int) : Int :=
  if y % 4 ≠ 0 then 365
  else if y % 100 ≠ 0 then 366
  else if y % 400 ≠ 0 then 365
  else 366

/-- The day number of the first day of year `y`. -/
def DayFromYear (y : Int) : Int :=
  365 * (y - 1970) + (y - 1969) / 4 - (y - 1901) / 100 + (y - 1601) / 400

/-- The largest year whose first day is not after `t`: an estimate from the
mean year length, corrected by at most one year. -/
def YearFromTime (t : Int) : Int :=
  let y := 1970 + Day t * 400 / 146097
  if DayFromYear (y + 1) ≤ Day t then y + 1
  else if DayFromYear y ≤ Day t then y
  else y - 1

/-- One in a leap year, zero otherwise. -/
def leapDay (y : Int) : Int := if DaysInYear y = 366 then 1 else 0

def InLeapYear (t : Int) : Int := leapDay (YearFromTime t)

def DayWithinYear (t : Int) : Int := Day t - DayFromYear (YearFromTime t)

/-- Days of the year before the first day of month `m` (0 is January). -/
def daysBeforeMonth (m leap : Int) : Int :=
  if m = 0 then 0
  else if m = 1 then 31
  else if m = 2 then 59 + leap
  else if m = 3 then 90 + leap
  else if m = 4 then 120 + leap
  else if m = 5 then 151 + leap
  else if m = 6 then 181 + leap
  else if m = 7 then 212 + leap
  else if m = 8 then 243 + leap
  else if m = 9 then 273 + leap
  else if m = 10 then 304 + leap
  else 334 + leap

/-- The month (0 is January) that holds day `d` of a year, counted from 0. -/
def monthOfDay (d leap : Int) : Int :=
  if d < 31 then 0
  else if d < 59 + leap then 1
  else if d < 90 + leap then 2
  else if d < 120 + leap then 3
  else if d < 151 + leap then 4
  else if d < 181 + leap then 5
  else if d < 212 + leap then 6
  else if d < 243 + leap then 7
  else if d < 273 + leap then 8
  else if d < 304 + leap then 9
  else if d < 334 + leap then 10
  else 11

def MonthFromTime (t : Int) : Int := monthOfDay (DayWithinYear t) (InLeapYear t)

def DateFromTime (t : Int) : Int :=
  DayWithinYear t - daysBeforeMonth (MonthFromTime t) (InLeapYear t) + 1

/-- The day number of day `date` of month `month` of `year`; months and dates
outside their usual range carry over. -/
def MakeDay (year month date : Int) : Int :=
  let ym := year + month / 12
  let mn := month % 12
  DayFromYear ym + daysBeforeMonth mn (leapDay ym) + date - 1

def MakeTime (hour min sec ms : Int) : Int :=
  hour * 3600000 + min * 60000 + sec * 1000 + ms

def MakeDate (day time : Int) : Int := day * msPerDay + time

/-- A time value within the range of `Date`, or `none` for an invalid date (`NaN`). -/
def TimeClip (t : Int) : Option Int :=
  if |t| ≤ maxTimeValue then some t else none

/-- Local time at the fixed offset `tz`; a change of offset for daylight saving
is not modelled. -/
def LocalTime (tz t : Int) : Int := t + tz

def UTC (tz t : Int) : Int := t - tz

def getFullYear (tz t : Int) : Int := YearFromTime (LocalTime tz t)

def getMonth (tz t : Int) : Int := MonthFromTime (LocalTime tz t)

def getDate (tz t : Int) : Int := DateFromTime (LocalTime tz t)

/-- The constructor `new Date(year, month, date)`: local midnight of that day;
a year from 0 to 99 stands for 1900 + year. -/
def newDateYMD (tz year month date : Int) : Option Int :=
  let yr := if 0 ≤ year ∧ year ≤ 99 then 1900 + year else year
  TimeClip (UTC tz (MakeDate (MakeDay yr month date) (MakeTime 0 0 0 0)))

/-- The call `d.setDate(date)` on a date with time value `t`: its result, the new time value. -/
def setDate (tz t date : Int) : Option Int :=
  let lt := LocalTime tz t
  TimeClip (UTC tz (MakeDate (MakeDay (YearFromTime lt) (MonthFromTime lt) date) (TimeWithinDay lt)))

/-- The comparison `a >= b` of two dates; false when either is invalid. -/
def dateGe (a b : Option Int) : Bool :=
  match a, b with
  | some x, some y => decide (y ≤ x)
  | _, _ => false

/-! ## Activity records -/

/-- The `date` field of an activity record. -/
inductive DateField where
  /-- the field is absent (`undefined`) -/
  | missing
  /-- a Firestore `Timestamp`, an object whose `seconds` field holds this value -/
  | timestamp (seconds : Int)
  /-- a `Date` object with this time value, or another truthy value (a date
  string, a number other than 0) that `new Date` converts to it -/
  | date (t : Int)
  /-- a truthy value that `new Date` cannot convert -/
  | unparseable
  deriving DecidableEq

/-- An activity record; `emissions` is `none` when the field is absent. -/
structure Activity where
  category : String
  type : String
  amount : ℚ
  emissions : Option ℚ
  date : DateField

/-- The expression `activity.emissions || 0`. -/
def emissionsOrZero (emissions : Option ℚ) : ℚ :=
  match emissions with
  | some e => if e = 0 then 0 else e
  | none => 0

/-- The expression `new Date(activity.date)`. A `Timestamp` is an object that
does not convert to a time value. -/
def newDate : DateField → Option Int
  | .missing => none
  | .timestamp _ => none
  | .date t => TimeClip t
  | .unparseable => none

/-! ## `calculateTimeframeTotals` -/

/-- The window start `startDate` computed at the top of `calculateTimeframeTotals`. -/
def startDate (tz now : Int) (timeframe : String) : Option Int :=
  match timeframe with
  | "daily" => newDateYMD tz (getFullYear tz now) (getMonth tz now) (getDate tz now)
  | "weekly" => (setDate tz now (getDate tz now - 7)).bind TimeClip
  | "monthly" => newDateYMD tz (getFullYear tz now) (getMonth tz now) 1
  | _ => TimeClip 0

/-- The value of `date.seconds` when `date && date.seconds` is truthy: the
field is a `Timestamp` and its `seconds` is not 0. -/
def truthySeconds : DateField → Option Int
  | .timestamp seconds => if seconds ≠ 0 then some seconds else none
  | _ => none

/-- Truthiness of the `date` field. -/
def isTruthy : DateField → Bool
  | .missing => false
  | _ => true

/-- The callback given to `filter`. -/
def inTimeframe (start : Option Int) (activity : Activity) : Bool :=
  match truthySeconds activity.date with
  | some seconds =>
      -- Firebase Timestamp format
      dateGe (TimeClip (seconds * 1000)) start
  | none =>
      if isTruthy activity.date then
        -- Regular Date format
        dateGe (newDate activity.date) start
      else
        -- No date, skip this activity
        false

/-- The function `calculateTimeframeTotals(activities, timeframe)`, with the
clock and the time zone it reads as arguments. -/
def calculateTimeframeTotals (tz now : Int) (activities : List Activity)
    (timeframe : String) : ℚ :=
  (activities.filter (inTimeframe (startDate tz now timeframe))).foldl
    (fun total activity => total + emissionsOrZero activity.emissions) 0

/-! ## `getCategoryBreakdown` -/

/-- The update `obj[key] += x` on an own property. -/
def addToProperty (obj : JSObject) (key : String) (x : ℚ) : JSObject :=
  obj.map (fun p => if p.1 = key then (p.1, p.2 + x) else p)

/-- The callback given to `forEach`, as a function of the object it updates. -/
def breakdownStep (breakdown : JSObject) (activity : Activity) : JSObject :=
  if hasOwnProperty breakdown activity.category then
    addToProperty breakdown activity.category (emissionsOrZero activity.emissions)
  else breakdown

def getCategoryBreakdown (activities : List Activity) : JSObject :=
  activities.foldl breakdownStep
    [("transport", 0), ("food", 0), ("energy", 0), ("lifestyle", 0)]

/-! ## `calculateFootprintScore` -/

/-- The function `calculateFootprintScore(totalEmissions, timeframe)`; a call
without the second argument is a call with `"daily"`. -/
def calculateFootprintScore (totalEmissions : ℚ) (timeframe : String) : ℚ :=
  let averageDaily : ℚ := 16.5
  let dailyEmissions := if timeframe = "daily" then totalEmissions else totalEmissions / 30
  if dailyEmissions ≤ averageDaily then
    max 0 (100 - (averageDaily - dailyEmissions) * 2)
  else
    max 0 (100 - (dailyEmissions - averageDaily) * 3)

/-! ## Date strings -/

def WeekDay (t : Int) : Int := (Day t + 4) % 7

def weekdayName (w : Int) : String :=
  if w = 0 then "Sun"
  else if w = 1 then "Mon"
  else if w = 2 then "Tue"
  else if w = 3 then "Wed"
  else if w = 4 then "Thu"
  else if w = 5 then "Fri"
  else "Sat"

def monthName (m : Int) : String :=
  if m = 0 then "Jan"
  else if m = 1 then "Feb"
  else if m = 2 then "Mar"
  else if m = 3 then "Apr"
  else if m = 4 then "May"
  else if m = 5 then "Jun"
  else if m = 6 then "Jul"
  else if m = 7 then "Aug"
  else if m = 8 then "Sep"
  else if m = 9 then "Oct"
  else if m = 10 then "Nov"
  else "Dec"

/-- The call `s.padStart(width, "0")`. -/
def padStart (width : Nat) (s : String) : String :=
  String.mk (List.replicate (width - s.length) '0') ++ s

/-- The call `d.toDateString()` on a date with time value `tv` (`none` for an
invalid date): weekday, month, day of the month on two digits and year on at
least four, in local time. -/
def toDateString (tz : Int) (tv : Option Int) : String :=
  match tv with
  | none => "Invalid Date"
  | some t =>
    let lt := LocalTime tz t
    let yv := YearFromTime lt
    weekdayName (WeekDay lt) ++ " " ++ monthName (MonthFromTime lt) ++ " " ++
      padStart 2 (toString (DateFromTime lt).toNat) ++ " " ++
      (if 0 ≤ yv then "" else "-") ++ padStart 4 (toString yv.natAbs)

/-- The elements of `new Set(xs)`, in insertion order: each value once, at its
first occurrence. -/
def newSet (xs : List String) : List String :=
  xs.foldl (fun set x => if x ∈ set then set else set ++ [x]) []

/-- The call `xs.sort()`: ascending order of the strings. -/
def sort (xs : List String) : List String :=
  xs.insertionSort (fun a b => a ≤ b)

/-! ## Badges -/

/-- An entry of `BADGES`. A condition takes the time zone and the clock as its
first two arguments, for the one condition that reads them. -/
structure Badge where
  id : String
  name : String
  description : String
  icon : String
  condition : Int → Int → List Activity → Bool
  unlocked : Bool

/-- The condition of `first-steps`. -/
def BADGES.first_steps.condition (activities : List Activity) : Bool :=
  decide (activities.length ≥ 1)

/-- The condition of `week-warrior`. -/
def BADGES.week_warrior.condition (tz : Int) (activities : List Activity) : Bool :=
  if activities.length < 7 then false
  else
    let dates := activities.map (fun a => toDateString tz (newDate a.date))
    let uniqueDates := sort (newSet dates)
    decide (uniqueDates.length ≥ 7)

/-- The condition of `low-carbon`. -/
def BADGES.low_carbon.condition (tz now : Int) (activities : List Activity) : Bool :=
  let weeklyTotal := calculateTimeframeTotals tz now activities "weekly"
  decide (weeklyTotal < 70)

/-- The condition of `transport-hero`. -/
def BADGES.transport_hero.condition (activities : List Activity) : Bool :=
  let sustainableTransport := activities.filter (fun a =>
    a.category = "transport" && ["bicycle", "walking", "train", "bus"].contains a.type)
  decide (sustainableTransport.length ≥ 10)

/-- The condition of `plant-power`. -/
def BADGES.plant_power.condition (activities : List Activity) : Bool :=
  let plantBased := activities.filter (fun a =>
    a.category = "food" && ["vegetables", "fruits", "tofu", "nuts"].contains a.type)
  decide (plantBased.length ≥ 20)

/-- The object `BADGES` as the module creates it, its entries in key order. -/
def BADGES : List (String × Badge) :=
  [("first-steps",
     { id := "first-steps", name := "First Steps",
       description := "Logged your first activity", icon := "🌱",
       condition := fun _ _ activities => BADGES.first_steps.condition activities,
       unlocked := false }),
   ("week-warrior",
     { id := "week-warrior", name := "Week Warrior",
       description := "Logged activities for 7 consecutive days", icon := "🏆",
       condition := fun tz _ activities => BADGES.week_warrior.condition tz activities,
       unlocked := false }),
   ("low-carbon",
     { id := "low-carbon", name := "Low Carbon Champion",
       description := "Kept daily emissions under 10kg for a week", icon := "🌿",
       condition := fun tz now activities => BADGES.low_carbon.condition tz now activities,
       unlocked := false }),
   ("transport-hero",
     { id := "transport-hero", name := "Transport Hero",
       description := "Used sustainable transport 10 times", icon := "🚲",
       condition := fun _ _ activities => BADGES.transport_hero.condition activities,
       unlocked := false }),
   ("plant-power",
     { id := "plant-power", name := "Plant Power",
       description := "Chose plant-based options 20 times", icon := "🥬",
       condition := fun _ _ activities => BADGES.plant_power.condition activities,
       unlocked := false })]

/-- The callback given to `forEach` in `checkBadges`, on the pair of the array
`unlockedBadges` and the entries of `BADGES` visited so far. -/
def checkBadge (tz now : Int) (activities : List Activity)
    (state : List Badge × List (String × Badge)) (entry : String × Badge) :
    List Badge × List (String × Badge) :=
  let badge := entry.2
  if badge.condition tz now activities && !badge.unlocked then
    let unlockedBadge := { badge with unlocked := true }
    (state.1 ++ [unlockedBadge], state.2 ++ [(entry.1, unlockedBadge)])
  else
    (state.1, state.2 ++ [entry])

/-- The function `checkBadges(activities)` run on the object `badges`: the
array it returns and the object as the call leaves it. -/
def checkBadges (tz now : Int) (badges : List (String × Badge))
    (activities : List Activity) : List Badge × List (String × Badge) :=
  badges.foldl (checkBadge tz now activities) ([], [])

/-- The object after a sequence of calls of `checkBadges`, each with its clock
and its activity list. -/
def checkBadgesCalls (tz : Int) (badges : List (String × Badge))
    (calls : List (Int × List Activity)) : List (String × Badge) :=
  calls.foldl (fun current call => (checkBadges tz call.1 current call.2).2) badges

/-! ## `getEcoTips` -/

/-- A tip pushed by `getEcoTips`. -/
structure Tip where
  id : String
  title : String
  description : String
  impact : String
  category : String
  priority : String
  deriving DecidableEq

/-- The object `priorityOrder` of the comparator. -/
def priorityOrder : JSObject := [("high", 3), ("medium", 2), ("low", 1)]

/-- The read `priorityOrder[priority]` on one of the three priorities the
function gives its tips. -/
def priorityRank (priority : String) : ℚ := (priorityOrder.lookup priority).getD 0

/-- The comparator given to `sort`. -/
def comparePriority (a b : Tip) : ℚ := priorityRank b.priority - priorityRank a.priority

/-- The call `tips.sort(compare)`: a stable sort, `a` staying before `b` when
the comparator is not positive on them. -/
def sortTips (tips : List Tip) : List Tip :=
  tips.insertionSort (fun a b => comparePriority a b ≤ 0)

def tipTransportCar : Tip :=
  { id := "transport-car", title := "Reduce Car Usage",
    description := "Consider walking, cycling, or using public transport for short trips.",
    impact := "Can reduce emissions by up to 50% for short journeys",
    category := "transport", priority := "high" }

def tipFoodPlantBased : Tip :=
  { id := "food-plant-based", title := "Try Plant-Based Alternatives",
    description := "Replace meat with plant-based proteins a few times a week.",
    impact := "Can reduce food emissions by up to 70%",
    category := "food", priority := "high" }

def tipEnergySaving : Tip :=
  { id := "energy-saving", title := "Energy Efficiency",
    description := "Use LED bulbs, unplug electronics, and adjust thermostat settings.",
    impact := "Can save 10-15% on energy bills and emissions",
    category := "energy", priority := "medium" }

def tipReduceWaste : Tip :=
  { id := "reduce-waste", title := "Reduce, Reuse, Recycle",
    description := "Bring reusable bags, water bottles, and containers.",
    impact := "Reduces plastic waste and associated emissions",
    category := "lifestyle", priority := "medium" }

def tipLocalSeasonal : Tip :=
  { id := "local-seasonal", title := "Buy Local & Seasonal",
    description := "Choose locally grown, seasonal produce to reduce transport emissions.",
    impact := "Reduces food miles and supports local farmers",
    category := "food", priority := "low" }

/-- The array `tips` of `getEcoTips` as it stands before the final sort. -/
def pushedTips (userActivities : List Activity) (totalEmissions : ℚ) : List Tip :=
  let tips : List Tip := []
  let transportActivities := userActivities.filter (fun a => a.category = "transport")
  let carUsage := transportActivities.filter (fun a => a.type = "car")
  let tips := if carUsage.length > 0 then tips ++ [tipTransportCar] else tips
  let foodActivities := userActivities.filter (fun a => a.category = "food")
  let highEmissionFood := foodActivities.filter (fun a =>
    ["beef", "lamb", "cheese"].contains a.type)
  let tips := if highEmissionFood.length > 0 then tips ++ [tipFoodPlantBased] else tips
  let tips := if totalEmissions > 20 then tips ++ [tipEnergySaving] else tips
  let tips := tips ++ [tipReduceWaste]
  let tips := tips ++ [tipLocalSeasonal]
  tips

/-- The function `getEcoTips(userActivities, totalEmissions)`. -/
def getEcoTips (userActivities : List Activity) (totalEmissions : ℚ) : List Tip :=
  sortTips (pushedTips userActivities totalEmissions)

/-! ## The badges page (`components/Badges.js`) -/

/-- The object returned by `getBadgeColorByProgress`. -/
structure BadgeColors where
  background : String
  border : String
  isLocked : Bool
  deriving DecidableEq

def getBadgeColorByProgress (progress : ℚ) : BadgeColors :=
  if progress < 0 then
    { background := "bg-red-500", border := "border-red-500", isLocked := false }
  else if progress = 0 then
    { background := "bg-gray-200", border := "border-gray-200", isLocked := true }
  else if progress = 100 then
    { background := "bg-green-500", border := "border-green-500", isLocked := false }
  else if progress ≥ 51 ∧ progress ≤ 99 then
    { background := "bg-blue-500", border := "border-blue-500", isLocked := false }
  else if progress ≥ 1 ∧ progress ≤ 50 then
    { background := "bg-purple-500", border := "border-purple-500", isLocked := false }
  else
    -- This should not happen, but fallback for any edge cases
    { background := "bg-gray-200", border := "border-gray-200", isLocked := true }

/-- The function `getProgress(badgeId, activities)`, with the time zone the
date strings depend on. -/
def getProgress (tz : Int) (badgeId : String) (activities : List Activity) : ℚ :=
  match badgeId with
  | "first-steps" =>
      if activities.length ≥ 1 then 100 else ((activities.length : ℚ) / 1) * 100
  | "week-warrior" =>
      if activities.length < 7 then ((activities.length : ℚ) / 7) * 100
      else
        let dates := activities.map (fun a => toDateString tz (newDate a.date))
        let uniqueDates := sort (newSet dates)
        min 100 (((uniqueDates.length : ℚ) / 7) * 100)
  | "low-carbon" =>
      let weeklyTotal := activities.foldl
        (fun total activity => total + emissionsOrZero activity.emissions) 0
      -- If emissions exceed 70kg, show negative progress
      if weeklyTotal > 70 then max (-100) (((70 - weeklyTotal) / 70) * 100)
      else min 100 (((70 - weeklyTotal) / 70) * 100)
  | "transport-hero" =>
      let sustainableTransport := activities.filter (fun a =>
        a.category = "transport" && ["bicycle", "walking", "train", "bus"].contains a.type)
      min 100 (((sustainableTransport.length : ℚ) / 10) * 100)
  | "plant-power" =>
      let plantBased := activities.filter (fun a =>
        a.category = "food" && ["vegetables", "fruits", "tofu", "nuts"].contains a.type)
      min 100 (((plantBased.length : ℚ) / 20) * 100)
  | _ => 0

/-- Firestore's `arrayUnion(...elements)` applied to a stored array: each
element that is not yet present is added, once. -/
def arrayUnion (stored elements : List String) : List String :=
  elements.foldl (fun current x => if x ∈ current then current else current ++ [x]) stored

/-- What `checkForNewBadges` leaves behind: the component state `userBadges`,
the array `badges` of the user document, and the object `BADGES`. -/
structure BadgesPage where
  userBadges : List String
  storedBadges : List String
  badges : List (String × Badge)

/-- The function `checkForNewBadges()` when the update of the user document
succeeds. -/
def checkForNewBadges (tz now : Int) (activities : List Activity) (page : BadgesPage) :
    BadgesPage :=
  let result := checkBadges tz now page.badges activities
  let unlockedBadges := result.1
  if unlockedBadges.length > 0 then
    { userBadges := page.userBadges ++ unlockedBadges.map (fun badge => badge.id),
      storedBadges := arrayUnion page.storedBadges (unlockedBadges.map (fun badge => badge.id)),
      badges := result.2 }
  else
    { page with badges := result.2 }

/-! ## The two aggregators with the addition as a parameter

The code adds IEEE doubles and rounds each sum, so the order of the additions
can change a result. Where two results are compared that the code reaches by
different additions, the functions are taken with the addition of two numbers
as a parameter `add`, of which nothing is assumed. -/

/-- The call `records.reduce((total, activity) => total + (activity.emissions || 0), init)`
with `add` for the addition. -/
def reduceEmissionsWith (add : ℚ → ℚ → ℚ) (init : ℚ) (records : List Activity) : ℚ :=
  records.foldl (fun total activity => add total (emissionsOrZero activity.emissions)) init

/-- The function `calculateTimeframeTotals` with `add` for the addition. -/
def calculateTimeframeTotalsWith (add : ℚ → ℚ → ℚ) (tz now : Int)
    (activities : List Activity) (timeframe : String) : ℚ :=
  reduceEmissionsWith add 0 (activities.filter (inTimeframe (startDate tz now timeframe)))

/-- The update `obj[key] += x` with `add` for the addition. -/
def addToPropertyWith (add : ℚ → ℚ → ℚ) (obj : JSObject) (key : String) (x : ℚ) : JSObject :=
  obj.map (fun p => if p.1 = key then (p.1, add p.2 x) else p)

/-- The callback of `getCategoryBreakdown` with `add` for the addition. -/
def breakdownStepWith (add : ℚ → ℚ → ℚ) (breakdown : JSObject) (activity : Activity) :
    JSObject :=
  if hasOwnProperty breakdown activity.category then
    addToPropertyWith add breakdown activity.category (emissionsOrZero activity.emissions)
  else breakdown

/-- The function `getCategoryBreakdown` with `add` for the addition. -/
def getCategoryBreakdownWith (add : ℚ → ℚ → ℚ) (activities : List Activity) : JSObject :=
  activities.foldl (breakdownStepWith add)
    [("transport", 0), ("food", 0), ("energy", 0), ("lifestyle", 0)]

/-! ## Readings used to state the specification -/

/-- The instant the `date` field of a record stands for, when it holds one: a
`Timestamp` stands for `seconds * 1000` milliseconds. -/
def activityTime : DateField → Option Int
  | .timestamp seconds => some (seconds * 1000)
  | .date t => some t
  | .missing => none
  | .unparseable => none

/-- A date field is regular when it is not a `Timestamp` of second 0 and the
instant it stands for, if any, is within the range of `Date`. -/
def regularDate : DateField → Bool
  | .timestamp seconds => seconds ≠ 0 ∧ |seconds * 1000| ≤ maxTimeValue
  | .date t => |t| ≤ maxTimeValue
  | .missing => true
  | .unparseable => true

/-- The record has a date and that date is at or after `start`. -/
def datedAtOrAfter (start : Int) (activity : Activity) : Bool :=
  match activityTime activity.date with
  | some d => decide (start ≤ d)
  | none => false

/-- The emissions of the activities of a list, a missing value counted as 0, summed. -/
def sumEmissions (activities : List Activity) : ℚ :=
  (activities.map (fun a => a.emissions.getD 0)).sum

/-- The four fixed categories, in the order of the breakdown. -/
def categories : List String := ["transport", "food", "energy", "lifestyle"]

/-- The emissions of the activities of category `c`, summed. -/
def categorySum (c : String) (activities : List Activity) : ℚ :=
  sumEmissions (activities.filter (fun a => a.category = c))

/-- The values of an object, summed. -/
def sumValues (obj : JSObject) : ℚ := (obj.map Prod.snd).sum

/-- The daily-equivalent value the score is computed from: the total itself
for the daily timeframe, the total divided by 30 for any other. -/
def dailyEquivalent (totalEmissions : ℚ) (timeframe : String) : ℚ :=
  if timeframe = "daily" then totalEmissions else totalEmissions / 30

/-- The object `BADGES` with the unlocked flag of each badge given by `flags`. -/
def BADGES.withUnlocked (flags : String → Bool) : List (String × Badge) :=
  BADGES.map (fun entry => (entry.1, { entry.2 with unlocked := flags entry.1 }))

/-- Whether the object holds the badge `id` with its unlocked flag set. -/
def isUnlocked (badges : List (String × Badge)) (id : String) : Bool :=
  badges.any (fun entry => entry.2.id = id && entry.2.unlocked)

/-- The local calendar day, as a day number, of the instant a date field
stands for. -/
def calendarDay (tz : Int) (date : DateField) : Option Int :=
  (activityTime date).map (fun t => Day (LocalTime tz t))

/-- The calendar days on which the activities of a list are dated. -/
def calendarDays (tz : Int) (activities : List Activity) : List Int :=
  activities.filterMap (fun a => calendarDay tz a.date)

/-- The number of distinct calendar days among the dates of the activities. -/
def distinctDays (tz : Int) (activities : List Activity) : Nat :=
  (calendarDays tz activities).dedup.length

/-- Some seven consecutive days all occur in the list of days. -/
def hasSevenConsecutiveDays (days : List Int) : Bool :=
  days.any (fun d => (List.range 7).all (fun i => decide ((d + (i : Int)) ∈ days)))

/-- The emissions of the activities dated on the calendar day `day`, summed. -/
def dayEmissions (tz day : Int) (activities : List Activity) : ℚ :=
  sumEmissions (activities.filter (fun a => calendarDay tz a.date = some day))

/-- The week-warrior test without the early return: the number of distinct
calendar dates, as the condition reads them off the activities, is at least 7. -/
def weekWarriorWithoutEarlyReturn (tz : Int) (activities : List Activity) : Bool :=
  decide (7 ≤ (activities.map (fun a => toDateString tz (newDate a.date))).dedup.length)

/-- The tips in rule order, each kept when its rule fires; the last two rules
always fire. -/
def tipsInRuleOrder (userActivities : List Activity) (totalEmissions : ℚ) : List Tip :=
  (if ∃ a ∈ userActivities, a.category = "transport" ∧ a.type = "car"
    then [tipTransportCar] else []) ++
  (if ∃ a ∈ userActivities, a.category = "food" ∧ a.type ∈ ["beef", "lamb", "cheese"]
    then [tipFoodPlantBased] else []) ++
  (if totalEmissions > 20 then [tipEnergySaving] else []) ++
  [tipReduceWaste, tipLocalSeasonal]

/-! # Theorems -/

/-! ## Emission calculator -/

theorem orZero_number (q : ℚ) : orZero (.number q) = .number q := by
  unfold orZero; split <;> simp_all

theorem times_orZero_getProperty (obj : JSObject) (key : String) (f x : ℚ)
    (h : obj.lookup key = some f) : times (orZero (getProperty obj key)) x = .real (f * x) := by
  simp [getProperty, h, orZero_number, times]

theorem times_orZero_getProperty_none (obj : JSObject) (key : String) (x : ℚ)
    (h : obj.lookup key = none) (hk : key ∉ objectPrototypeKeys) :
    times (orZero (getProperty obj key)) x = .real 0 := by
  simp [getProperty, h, hk, orZero, times]

theorem times_orZero_getProperty_inherited (obj : JSObject) (key : String) (x : ℚ)
    (h : obj.lookup key = none) (hk : key ∈ objectPrototypeKeys) :
    times (orZero (getProperty obj key)) x = .nan := by
  simp [getProperty, h, hk, orZero, times]

theorem lookup_EMISSION_FACTORS (category : String) :
    EMISSION_FACTORS.lookup category =
      if category = "transport" then some EMISSION_FACTORS.transport
      else if category = "food" then some EMISSION_FACTORS.food
      else if category = "energy" then some EMISSION_FACTORS.energy
      else if category = "lifestyle" then some EMISSION_FACTORS.lifestyle
      else none := by
  unfold EMISSION_FACTORS
  by_cases h1 : category = "transport"
  · subst h1; simp [List.lookup]
  by_cases h2 : category = "food"
  · subst h2; simp [List.lookup]
  by_cases h3 : category = "energy"
  · subst h3; simp [List.lookup]
  by_cases h4 : category = "lifestyle"
  · subst h4; simp [List.lookup]
  · have e1 : (category == "transport") = false := by simp [h1]
    have e2 : (category == "food") = false := by simp [h2]
    have e3 : (category == "energy") = false := by simp [h3]
    have e4 : (category == "lifestyle") = false := by simp [h4]
    simp [List.lookup, e1, e2, e3, e4, h1, h2, h3, h4]

theorem calculateEmissions_other_category (activity type : String) (category : Option String)
    (unit : Option String) (amount : ℚ)
    (h1 : category ≠ some "transport") (h2 : category ≠ some "food")
    (h3 : category ≠ some "energy") (h4 : category ≠ some "lifestyle") :
    calculateEmissions activity ⟨type, category, amount, unit⟩ = .real 0 := by
  unfold calculateEmissions
  split <;> simp_all

theorem calculateEmissions_table (activity category type : String) (unit : Option String)
    (amount f : ℚ) (h : tableFactor category type = some f) :
    calculateEmissions activity ⟨type, some category, amount, unit⟩ = .real (f * amount) := by
  unfold tableFactor at h
  rw [lookup_EMISSION_FACTORS] at h
  split_ifs at h with h1 h2 h3 h4
  · subst h1
    simpa [calculateEmissions, calculateTransportEmissions] using
      times_orZero_getProperty _ _ _ amount h
  · subst h2
    simpa [calculateEmissions, calculateFoodEmissions] using
      times_orZero_getProperty _ _ _ amount h
  · subst h3
    simpa [calculateEmissions, calculateEnergyEmissions] using
      times_orZero_getProperty _ _ _ amount h
  · subst h4
    simpa [calculateEmissions, calculateLifestyleEmissions] using
      times_orZero_getProperty _ _ _ amount h
  · simp at h

theorem calculateEmissions_unknown (activity category type : String) (unit : Option String)
    (amount : ℚ) (h : tableFactor category type = none) (hk : type ∉ objectPrototypeKeys) :
    calculateEmissions activity ⟨type, some category, amount, unit⟩ = .real 0 := by
  unfold tableFactor at h
  rw [lookup_EMISSION_FACTORS] at h
  split_ifs at h with h1 h2 h3 h4
  · subst h1
    simpa [calculateEmissions, calculateTransportEmissions] using
      times_orZero_getProperty_none _ _ amount h hk
  · subst h2
    simpa [calculateEmissions, calculateFoodEmissions] using
      times_orZero_getProperty_none _ _ amount h hk
  · subst h3
    simpa [calculateEmissions, calculateEnergyEmissions] using
      times_orZero_getProperty_none _ _ amount h hk
  · subst h4
    simpa [calculateEmissions, calculateLifestyleEmissions] using
      times_orZero_getProperty_none _ _ amount h hk
  · exact calculateEmissions_other_category _ _ _ _ _ (by simpa using h1) (by simpa using h2)
      (by simpa using h3) (by simpa using h4)

theorem tableFactor_car : tableFactor "transport" "car" = some 0.192 := by
  simp [tableFactor, EMISSION_FACTORS, EMISSION_FACTORS.transport, List.lookup]

theorem tableFactor_beef : tableFactor "food" "beef" = some 27 := by
  simp [tableFactor, EMISSION_FACTORS, EMISSION_FACTORS.food, List.lookup]; norm_num

theorem tableFactor_bicycle : tableFactor "transport" "bicycle" = some 0 := by
  simp [tableFactor, EMISSION_FACTORS, EMISSION_FACTORS.transport, List.lookup]

/-- C1: for a (category, type) pair of the factor table, with factor `f`,
`calculateEmissions` returns `f * amount` for every amount; a negative amount
is accepted and gives a negative result when `f` is positive. In particular
(transport, car, 10) gives 1.92, (food, beef, 2) gives 54 and
(transport, bicycle, 100) gives 0. -/
theorem calculateEmissions_eq_factor_mul (activity category type : String)
    (unit : Option String) (amount f : ℚ) (h : tableFactor category type = some f) :
    calculateEmissions activity ⟨type, some category, amount, unit⟩ = .real (f * amount) ∧
    (0 < f → amount < 0 →
      ∃ r, calculateEmissions activity ⟨type, some category, amount, unit⟩ = .real r ∧ r < 0) ∧
    calculateEmissions "" ⟨"car", some "transport", 10, none⟩ = .real 1.92 ∧
    calculateEmissions "" ⟨"beef", some "food", 2, none⟩ = .real 54.0 ∧
    calculateEmissions "" ⟨"bicycle", some "transport", 100, none⟩ = .real 0 := by
  refine ⟨calculateEmissions_table _ _ _ _ _ _ h, ?_, ?_, ?_, ?_⟩
  · intro hf ha
    exact ⟨f * amount, calculateEmissions_table _ _ _ _ _ _ h, mul_neg_of_pos_of_neg hf ha⟩
  · rw [calculateEmissions_table _ _ _ _ _ _ tableFactor_car]; norm_num
  · rw [calculateEmissions_table _ _ _ _ _ _ tableFactor_beef]; norm_num
  · rw [calculateEmissions_table _ _ _ _ _ _ tableFactor_bicycle]; norm_num

theorem calculateEmissions_eq_factor_mul_witness :
    tableFactor "lifestyle" "clothing" = some 33.4 ∧
    calculateEmissions "" ⟨"clothing", some "lifestyle", -2, some "items"⟩
      = .real (33.4 * -2) :=
  have h : tableFactor "lifestyle" "clothing" = some 33.4 := by
    simp [tableFactor, EMISSION_FACTORS, EMISSION_FACTORS.lifestyle, List.lookup]
  ⟨h, (calculateEmissions_eq_factor_mul "" "lifestyle" "clothing" (some "items") (-2) 33.4 h).1⟩

/-- C2: an unknown type does not always give 0. The type `toString` is not in
the factor table, yet the lookup finds the member every object inherits, which
is truthy, so the default 0 is not taken and the product is `NaN`. -/
theorem calculateEmissions_inherited_type :
    tableFactor "transport" "toString" = none ∧
    calculateEmissions "" ⟨"toString", some "transport", 5, none⟩ = .nan := by
  constructor
  · simp [tableFactor, EMISSION_FACTORS, EMISSION_FACTORS.transport, List.lookup]
  · decide

/-! ## The local calendar -/

theorem YearFromTime_spec (t : Int) :
    DayFromYear (YearFromTime t) ≤ Day t ∧ Day t < DayFromYear (YearFromTime t + 1) := by
  unfold YearFromTime
  generalize Day t = d
  simp only
  have hlo : DayFromYear (1970 + d * 400 / 146097 - 1) ≤ d := by
    unfold DayFromYear; omega
  have hhi : d < DayFromYear (1970 + d * 400 / 146097 + 1 + 1) := by
    unfold DayFromYear; omega
  split_ifs with h1 h2
  · exact ⟨h1, hhi⟩
  · exact ⟨h2, not_le.mp h1⟩
  · refine ⟨hlo, ?_⟩
    rw [sub_add_cancel]
    exact not_le.mp h2

theorem DayFromYear_succ (y : Int) : DayFromYear (y + 1) = DayFromYear y + DaysInYear y := by
  unfold DayFromYear DaysInYear
  split_ifs <;> omega

theorem DayWithinYear_range (t : Int) :
    0 ≤ DayWithinYear t ∧ DayWithinYear t < 365 + InLeapYear t := by
  have h := YearFromTime_spec t
  rw [DayFromYear_succ] at h
  unfold DayWithinYear InLeapYear leapDay DaysInYear
  unfold DaysInYear at h
  split_ifs at h ⊢ <;> omega

theorem monthOfDay_range (d leap : Int) : 0 ≤ monthOfDay d leap ∧ monthOfDay d leap ≤ 11 := by
  unfold monthOfDay
  by_cases h1 : d < 31
  · rw [if_pos h1]; omega
  rw [if_neg h1]
  by_cases h2 : d < 59 + leap
  · rw [if_pos h2]; omega
  rw [if_neg h2]
  by_cases h3 : d < 90 + leap
  · rw [if_pos h3]; omega
  rw [if_neg h3]
  by_cases h4 : d < 120 + leap
  · rw [if_pos h4]; omega
  rw [if_neg h4]
  by_cases h5 : d < 151 + leap
  · rw [if_pos h5]; omega
  rw [if_neg h5]
  by_cases h6 : d < 181 + leap
  · rw [if_pos h6]; omega
  rw [if_neg h6]
  by_cases h7 : d < 212 + leap
  · rw [if_pos h7]; omega
  rw [if_neg h7]
  by_cases h8 : d < 243 + leap
  · rw [if_pos h8]; omega
  rw [if_neg h8]
  by_cases h9 : d < 273 + leap
  · rw [if_pos h9]; omega
  rw [if_neg h9]
  by_cases h10 : d < 304 + leap
  · rw [if_pos h10]; omega
  rw [if_neg h10]
  by_cases h11 : d < 334 + leap
  · rw [if_pos h11]; omega
  rw [if_neg h11]
  omega

theorem date_in_month (d leap : Int) (h0 : 0 ≤ d) (h365 : d < 365 + leap)
    (hl : leap = 0 ∨ leap = 1) :
    1 ≤ d - daysBeforeMonth (monthOfDay d leap) leap + 1 ∧
      d - daysBeforeMonth (monthOfDay d leap) leap + 1 ≤ 31 := by
  unfold monthOfDay
  by_cases h1 : d < 31
  · rw [if_pos h1]; simp [daysBeforeMonth]; omega
  rw [if_neg h1]
  by_cases h2 : d < 59 + leap
  · rw [if_pos h2]; simp [daysBeforeMonth]; omega
  rw [if_neg h2]
  by_cases h3 : d < 90 + leap
  · rw [if_pos h3]; simp [daysBeforeMonth]; omega
  rw [if_neg h3]
  by_cases h4 : d < 120 + leap
  · rw [if_pos h4]; simp [daysBeforeMonth]; omega
  rw [if_neg h4]
  by_cases h5 : d < 151 + leap
  · rw [if_pos h5]; simp [daysBeforeMonth]; omega
  rw [if_neg h5]
  by_cases h6 : d < 181 + leap
  · rw [if_pos h6]; simp [daysBeforeMonth]; omega
  rw [if_neg h6]
  by_cases h7 : d < 212 + leap
  · rw [if_pos h7]; simp [daysBeforeMonth]; omega
  rw [if_neg h7]
  by_cases h8 : d < 243 + leap
  · rw [if_pos h8]; simp [daysBeforeMonth]; omega
  rw [if_neg h8]
  by_cases h9 : d < 273 + leap
  · rw [if_pos h9]; simp [daysBeforeMonth]; omega
  rw [if_neg h9]
  by_cases h10 : d < 304 + leap
  · rw [if_pos h10]; simp [daysBeforeMonth]; omega
  rw [if_neg h10]
  by_cases h11 : d < 334 + leap
  · rw [if_pos h11]; simp [daysBeforeMonth]; omega
  rw [if_neg h11]
  simp [daysBeforeMonth]; omega

theorem MonthFromTime_range (t : Int) : 0 ≤ MonthFromTime t ∧ MonthFromTime t ≤ 11 :=
  monthOfDay_range _ _

theorem DateFromTime_range (t : Int) : 1 ≤ DateFromTime t ∧ DateFromTime t ≤ 31 := by
  have h := DayWithinYear_range t
  have hl : InLeapYear t = 0 ∨ InLeapYear t = 1 := by
    unfold InLeapYear leapDay; split_ifs <;> simp
  exact date_in_month _ _ h.1 h.2 hl

theorem MakeDay_of_time (t : Int) :
    MakeDay (YearFromTime t) (MonthFromTime t) (DateFromTime t) = Day t := by
  have hm := MonthFromTime_range t
  have h12 : MonthFromTime t / 12 = 0 := by omega
  have hmod : MonthFromTime t % 12 = MonthFromTime t := by omega
  unfold MakeDay
  simp only [h12, hmod, add_zero]
  unfold DateFromTime DayWithinYear InLeapYear
  ring

theorem TimeClip_bind_TimeClip (t : Int) : (TimeClip t).bind TimeClip = TimeClip t := by
  unfold TimeClip
  split_ifs with h <;> simp [TimeClip, h]

theorem day_mul_add_time (t : Int) : Day t * msPerDay + TimeWithinDay t = t := by
  unfold Day TimeWithinDay msPerDay
  omega

/-- At a fixed offset from UTC the weekly window starts exactly seven days
before `now`. -/
theorem startDate_weekly (tz now : Int) :
    startDate tz now "weekly" = TimeClip (now - 7 * msPerDay) := by
  have hd := MakeDay_of_time (LocalTime tz now)
  have hs : MakeDay (YearFromTime (LocalTime tz now)) (MonthFromTime (LocalTime tz now))
      (DateFromTime (LocalTime tz now) - 7) = Day (LocalTime tz now) - 7 := by
    rw [← hd]; unfold MakeDay; ring
  have ht := day_mul_add_time (LocalTime tz now)
  have he : UTC tz (MakeDate (Day (LocalTime tz now) - 7) (TimeWithinDay (LocalTime tz now)))
      = now - 7 * msPerDay := by
    unfold UTC MakeDate
    unfold LocalTime at ht ⊢
    linarith
  simp only [startDate, setDate, getDate, hs, he, TimeClip_bind_TimeClip]

/-- Outside the years 0 to 99, the daily window starts at local midnight of the
day of `now`. -/
theorem startDate_daily (tz now : Int)
    (hy : ¬ (0 ≤ getFullYear tz now ∧ getFullYear tz now ≤ 99)) :
    startDate tz now "daily" = TimeClip (Day (now + tz) * msPerDay - tz) := by
  have hd := MakeDay_of_time (LocalTime tz now)
  simp only [startDate, newDateYMD, if_neg hy]
  unfold getFullYear getMonth getDate
  rw [hd]
  simp [UTC, MakeDate, MakeTime, LocalTime]

/-- Outside the years 0 to 99, the monthly window starts at local midnight of
the first day of the month of `now`. -/
theorem startDate_monthly (tz now : Int)
    (hy : ¬ (0 ≤ getFullYear tz now ∧ getFullYear tz now ≤ 99)) :
    startDate tz now "monthly" =
      TimeClip ((Day (now + tz) - (DateFromTime (now + tz) - 1)) * msPerDay - tz) := by
  have hd := MakeDay_of_time (LocalTime tz now)
  have hs : MakeDay (YearFromTime (LocalTime tz now)) (MonthFromTime (LocalTime tz now)) 1
      = Day (LocalTime tz now) - (DateFromTime (LocalTime tz now) - 1) := by
    rw [← hd]; unfold MakeDay; ring
  simp only [startDate, newDateYMD, if_neg hy]
  unfold getFullYear getMonth
  rw [hs]
  simp [UTC, MakeDate, MakeTime, LocalTime]

theorem day_start_le (t : Int) : Day t * msPerDay ≤ t ∧ t < Day t * msPerDay + msPerDay := by
  unfold Day msPerDay
  omega

/-! ## Timeframe totals -/

theorem emissionsOrZero_eq (e : Option ℚ) : emissionsOrZero e = e.getD 0 := by
  unfold emissionsOrZero
  cases e with
  | none => rfl
  | some q => by_cases h : q = 0 <;> simp [h]

theorem foldl_add_emissions (l : List Activity) (init : ℚ) :
    l.foldl (fun total activity => total + emissionsOrZero activity.emissions) init =
      init + sumEmissions l := by
  induction l generalizing init with
  | nil => simp [sumEmissions]
  | cons a l ih =>
    rw [List.foldl_cons, ih]
    simp only [sumEmissions, List.map_cons, List.sum_cons, emissionsOrZero_eq]
    ring

/-- The total is the sum of the stored emissions over the records the filter keeps. -/
theorem calculateTimeframeTotals_eq_sum (tz now : Int) (activities : List Activity)
    (timeframe : String) :
    calculateTimeframeTotals tz now activities timeframe =
      sumEmissions (activities.filter (inTimeframe (startDate tz now timeframe))) := by
  unfold calculateTimeframeTotals
  rw [foldl_add_emissions, zero_add]

theorem calculateTimeframeTotals_nil (tz now : Int) (timeframe : String) :
    calculateTimeframeTotals tz now [] timeframe = 0 := by
  simp [calculateTimeframeTotals]

theorem calculateTimeframeTotals_cons (tz now : Int) (a : Activity) (rest : List Activity)
    (timeframe : String) :
    calculateTimeframeTotals tz now (a :: rest) timeframe =
      (if inTimeframe (startDate tz now timeframe) a then a.emissions.getD 0 else 0) +
        calculateTimeframeTotals tz now rest timeframe := by
  simp only [calculateTimeframeTotals_eq_sum, List.filter_cons]
  split_ifs <;> simp [sumEmissions]

theorem TimeClip_of_abs_le (t : Int) (h : |t| ≤ maxTimeValue) : TimeClip t = some t := by
  simp [TimeClip, h]

/-- On a regular date field the filter keeps exactly the records dated at or
after the window start. -/
theorem inTimeframe_regular (start : Int) (a : Activity) (h : regularDate a.date = true) :
    inTimeframe (some start) a = datedAtOrAfter start a := by
  unfold inTimeframe datedAtOrAfter
  cases hd : a.date with
  | missing => simp [activityTime, truthySeconds, isTruthy]
  | unparseable => simp [activityTime, newDate, dateGe, truthySeconds, isTruthy]
  | date t =>
    rw [hd] at h
    have ht : |t| ≤ maxTimeValue := by simpa [regularDate] using h
    simp [activityTime, newDate, dateGe, truthySeconds, isTruthy, TimeClip_of_abs_le t ht]
  | timestamp seconds =>
    rw [hd] at h
    have hs : seconds ≠ 0 ∧ |seconds * 1000| ≤ maxTimeValue := by simpa [regularDate] using h
    simp [activityTime, dateGe, truthySeconds, hs.1, TimeClip_of_abs_le _ hs.2]

/-- A record without a date is never kept. -/
theorem inTimeframe_missing (start : Option Int) (a : Activity) (h : a.date = .missing) :
    inTimeframe start a = false := by
  simp [inTimeframe, truthySeconds, isTruthy, h]

/-- With regular date fields and a valid window start, the total is the sum of
the stored emissions over exactly the records dated at or after the start. -/
theorem calculateTimeframeTotals_regular (tz now start : Int) (activities : List Activity)
    (timeframe : String) (hs : startDate tz now timeframe = some start)
    (hr : ∀ a ∈ activities, regularDate a.date = true) :
    calculateTimeframeTotals tz now activities timeframe =
      sumEmissions (activities.filter (datedAtOrAfter start)) := by
  rw [calculateTimeframeTotals_eq_sum, hs]
  congr 1
  apply List.filter_congr
  intro a ha
  exact inTimeframe_regular start a (hr a ha)

theorem sumEmissions_nonneg (l : List Activity)
    (h : ∀ a ∈ l, ∀ e, a.emissions = some e → 0 ≤ e) : 0 ≤ sumEmissions l := by
  unfold sumEmissions
  apply List.sum_nonneg
  intro x hx
  obtain ⟨a, ha, rfl⟩ := List.mem_map.mp hx
  cases he : a.emissions with
  | none => simp
  | some e => simpa using h a ha e he

theorem some_eq_of_TimeClip {t s : Int} (h : TimeClip t = some s) : t = s := by
  unfold TimeClip at h
  split_ifs at h
  simpa using h

/-- Outside the years 0 to 99, each of the three windows starts at or before `now`. -/
theorem startDate_le_now (tz now start : Int) (timeframe : String)
    (ht : timeframe = "daily" ∨ timeframe = "weekly" ∨ timeframe = "monthly")
    (hy : ¬ (0 ≤ getFullYear tz now ∧ getFullYear tz now ≤ 99))
    (hs : startDate tz now timeframe = some start) : start ≤ now := by
  have hday := day_start_le (now + tz)
  rcases ht with rfl | rfl | rfl
  · rw [startDate_daily tz now hy] at hs
    have := some_eq_of_TimeClip hs
    omega
  · rw [startDate_weekly] at hs
    have := some_eq_of_TimeClip hs
    unfold msPerDay at this
    omega
  · rw [startDate_monthly tz now hy] at hs
    have := some_eq_of_TimeClip hs
    have hd := DateFromTime_range (now + tz)
    have hm : (0 : Int) ≤ msPerDay := by unfold msPerDay; omega
    nlinarith [mul_nonneg (sub_nonneg.mpr hd.1) hm]

/-- C3: a record whose date is the `Timestamp` of second 0 has a date, and at
01:00 UTC on 1 January 1970 that date is at the start of the daily window
(midnight, time value 0); the filter tests `seconds` for truthiness, takes the
record for a plain date, fails to convert it and drops it, so the total is 0
and not the stored 1.92. -/
theorem calculateTimeframeTotals_epoch_timestamp :
    startDate 0 3600000 "daily" = some 0 ∧
    datedAtOrAfter 0 ⟨"transport", "car", 10, some 1.92, .timestamp 0⟩ = true ∧
    sumEmissions [⟨"transport", "car", 10, some 1.92, .timestamp 0⟩] = 1.92 ∧
    calculateTimeframeTotals 0 3600000
      [⟨"transport", "car", 10, some 1.92, .timestamp 0⟩] "daily" = 0 := by
  have hs : startDate 0 3600000 "daily" = some 0 := by decide
  refine ⟨hs, by decide, by simp [sumEmissions], ?_⟩
  rw [calculateTimeframeTotals_eq_sum, hs]
  simp [inTimeframe, truthySeconds, isTruthy, newDate, dateGe, sumEmissions]

/-- C4, as stated, fails: on 5 November 2024 (00:00 UTC) a record dated one day
later is counted in the daily total. -/
theorem calculateTimeframeTotals_counts_future :
    (1730764800000 : Int) < 1730851200000 ∧
    calculateTimeframeTotals 0 1730764800000
      [⟨"transport", "car", 10, some 1.92, .date 1730851200000⟩] "daily" = 1.92 := by
  have hs : startDate 0 1730764800000 "daily" = some 1730764800000 := by decide
  refine ⟨by decide, ?_⟩
  rw [calculateTimeframeTotals_eq_sum, hs]
  have hk : inTimeframe (some 1730764800000)
      ⟨"transport", "car", 10, some 1.92, .date 1730851200000⟩ = true := by decide
  simp [List.filter, hk, sumEmissions]

/-- C4 (amended): for a record with a regular date `d`, any timeframe and any
`now` with a valid window start, the record is included in the sum if and only
if `d` is at or after the window start. There is no upper bound at `now`: a
record dated after `now` is included as soon as the window starts at or before
`now`. -/
theorem calculateTimeframeTotals_includes_iff (tz now start d : Int) (a : Activity)
    (rest : List Activity) (timeframe : String)
    (hs : startDate tz now timeframe = some start)
    (hr : regularDate a.date = true) (hd : activityTime a.date = some d) :
    (inTimeframe (startDate tz now timeframe) a = true ↔ start ≤ d) ∧
    calculateTimeframeTotals tz now (a :: rest) timeframe =
      (if start ≤ d then a.emissions.getD 0 else 0) +
        calculateTimeframeTotals tz now rest timeframe ∧
    (start ≤ now → now < d → inTimeframe (startDate tz now timeframe) a = true) := by
  have hiff : inTimeframe (startDate tz now timeframe) a = true ↔ start ≤ d := by
    rw [hs, inTimeframe_regular start a hr]
    simp [datedAtOrAfter, hd]
  refine ⟨hiff, ?_, fun h1 h2 => hiff.mpr (by omega)⟩
  rw [calculateTimeframeTotals_cons]
  by_cases h : start ≤ d
  · simp [h, hiff.mpr h]
  · have hf : inTimeframe (startDate tz now timeframe) a = false := by
      simpa using fun hh => h (hiff.mp hh)
    simp [h, hf]

theorem calculateTimeframeTotals_includes_iff_witness :
    startDate 0 1730764800123 "weekly" = some 1730160000123 ∧
    regularDate (.timestamp 1730851200) = true ∧
    activityTime (.timestamp 1730851200) = some 1730851200000 ∧
    (inTimeframe (startDate 0 1730764800123 "weekly")
      ⟨"food", "beef", 2, some 54, .timestamp 1730851200⟩ = true ↔
        (1730160000123 : Int) ≤ 1730851200000) :=
  have hs : startDate 0 1730764800123 "weekly" = some 1730160000123 := by decide
  have hr : regularDate (.timestamp 1730851200) = true := by decide
  have hd : activityTime (.timestamp 1730851200) = some 1730851200000 := by decide
  ⟨hs, hr, hd,
    (calculateTimeframeTotals_includes_iff 0 1730764800123 1730160000123 1730851200000
      ⟨"food", "beef", 2, some 54, .timestamp 1730851200⟩ [] "weekly" hs hr hd).1⟩

/-- C5: when every stored emissions value is non-negative (or missing), the
total is non-negative, for every timeframe and every current time. -/
theorem calculateTimeframeTotals_nonneg (tz now : Int) (activities : List Activity)
    (timeframe : String) (h : ∀ a ∈ activities, ∀ e, a.emissions = some e → 0 ≤ e) :
    0 ≤ calculateTimeframeTotals tz now activities timeframe := by
  rw [calculateTimeframeTotals_eq_sum]
  apply sumEmissions_nonneg
  intro a ha e he
  exact h a (List.mem_filter.mp ha).1 e he

theorem calculateTimeframeTotals_nonneg_witness :
    0 ≤ calculateTimeframeTotals 0 1730764800123
      [⟨"food", "beef", 2, some 54, .timestamp 1730851200⟩,
       ⟨"transport", "walking", 3, none, .missing⟩] "monthly" :=
  calculateTimeframeTotals_nonneg 0 1730764800123 _ "monthly" (by
    intro a ha e he
    simp only [List.mem_cons, List.mem_singleton, List.not_mem_nil, or_false] at ha
    rcases ha with rfl | rfl
    · simp only [Option.some.injEq] at he
      rw [← he]; norm_num
    · simp at he)

/-! ## Category breakdown -/

theorem breakdownStep_four (t f e l : ℚ) (a : Activity) :
    breakdownStep [("transport", t), ("food", f), ("energy", e), ("lifestyle", l)] a =
      [("transport", t + categorySum "transport" [a]), ("food", f + categorySum "food" [a]),
       ("energy", e + categorySum "energy" [a]),
       ("lifestyle", l + categorySum "lifestyle" [a])] := by
  unfold breakdownStep hasOwnProperty addToProperty categorySum sumEmissions
  rw [emissionsOrZero_eq]
  by_cases h1 : a.category = "transport"
  · simp [h1, List.lookup]
  by_cases h2 : a.category = "food"
  · simp [h2, List.lookup]
  by_cases h3 : a.category = "energy"
  · simp [h3, List.lookup]
  by_cases h4 : a.category = "lifestyle"
  · simp [h4, List.lookup]
  · have e1 : (a.category == "transport") = false := by simp [h1]
    have e2 : (a.category == "food") = false := by simp [h2]
    have e3 : (a.category == "energy") = false := by simp [h3]
    have e4 : (a.category == "lifestyle") = false := by simp [h4]
    simp [List.lookup, e1, e2, e3, e4, h1, h2, h3, h4]

theorem categorySum_cons (c : String) (a : Activity) (l : List Activity) :
    categorySum c (a :: l) = categorySum c [a] + categorySum c l := by
  unfold categorySum sumEmissions
  by_cases h : a.category = c <;> simp [List.filter_cons, h]

theorem foldl_breakdownStep (activities : List Activity) (t f e l : ℚ) :
    activities.foldl breakdownStep
        [("transport", t), ("food", f), ("energy", e), ("lifestyle", l)] =
      [("transport", t + categorySum "transport" activities),
       ("food", f + categorySum "food" activities),
       ("energy", e + categorySum "energy" activities),
       ("lifestyle", l + categorySum "lifestyle" activities)] := by
  induction activities generalizing t f e l with
  | nil => simp [categorySum, sumEmissions]
  | cons a rest ih =>
    rw [List.foldl_cons, breakdownStep_four, ih]
    simp only [categorySum_cons _ a rest, add_assoc]

/-- The breakdown in closed form: the four keys in order, each with the summed
emissions of its category. -/
theorem getCategoryBreakdown_eq (activities : List Activity) :
    getCategoryBreakdown activities =
      [("transport", categorySum "transport" activities),
       ("food", categorySum "food" activities),
       ("energy", categorySum "energy" activities),
       ("lifestyle", categorySum "lifestyle" activities)] := by
  unfold getCategoryBreakdown
  rw [foldl_breakdownStep]
  simp

theorem categorySum_eq_zero (c : String) (activities : List Activity)
    (h : ∀ a ∈ activities, a.category ≠ c) : categorySum c activities = 0 := by
  unfold categorySum
  have : activities.filter (fun a => decide (a.category = c)) = [] := by
    rw [List.filter_eq_nil_iff]
    intro a ha
    simpa using h a ha
  rw [this]
  simp [sumEmissions]

theorem categorySum_append (c : String) (l1 l2 : List Activity) :
    categorySum c (l1 ++ l2) = categorySum c l1 + categorySum c l2 := by
  unfold categorySum sumEmissions
  simp [List.filter_append]

theorem categorySum_insert_other (c : String) (a : Activity) (l1 l2 : List Activity)
    (h : a.category ≠ c) : categorySum c (l1 ++ a :: l2) = categorySum c (l1 ++ l2) := by
  rw [categorySum_append, categorySum_append, categorySum_cons,
    categorySum_eq_zero c [a] (by simpa using h)]
  ring

/-- C6: for every activity list the breakdown has exactly the four keys
transport, food, energy and lifestyle, and the value of a category without an
activity is 0. -/
theorem getCategoryBreakdown_keys (activities : List Activity) :
    (getCategoryBreakdown activities).map Prod.fst =
      ["transport", "food", "energy", "lifestyle"] ∧
    (∀ key, hasOwnProperty (getCategoryBreakdown activities) key = true ↔
      key ∈ categories) ∧
    (∀ c ∈ categories, (∀ a ∈ activities, a.category ≠ c) →
      getProperty (getCategoryBreakdown activities) c = .number 0) := by
  rw [getCategoryBreakdown_eq]
  refine ⟨by simp, ?_, ?_⟩
  · intro key
    unfold hasOwnProperty categories
    by_cases h1 : key = "transport"
    · simp [h1, List.lookup]
    by_cases h2 : key = "food"
    · simp [h2, List.lookup]
    by_cases h3 : key = "energy"
    · simp [h3, List.lookup]
    by_cases h4 : key = "lifestyle"
    · simp [h4, List.lookup]
    · have e1 : (key == "transport") = false := by simp [h1]
      have e2 : (key == "food") = false := by simp [h2]
      have e3 : (key == "energy") = false := by simp [h3]
      have e4 : (key == "lifestyle") = false := by simp [h4]
      simp [List.lookup, e1, e2, e3, e4, h1, h2, h3, h4]
  · intro c hc hnone
    have hz := categorySum_eq_zero c activities hnone
    simp only [categories, List.mem_cons, List.mem_singleton, List.not_mem_nil,
      or_false] at hc
    rcases hc with rfl | rfl | rfl | rfl <;> simp [getProperty, List.lookup, hz]

/-- C7: for each of the four categories `c` the entry of the breakdown is the
sum of the emissions (a missing value counted as 0) of the activities of
category `c`; an activity of any other category, wherever it stands in the
list, changes no entry. -/
theorem getCategoryBreakdown_values (activities : List Activity) :
    (∀ c ∈ categories,
      getProperty (getCategoryBreakdown activities) c = .number (categorySum c activities)) ∧
    (∀ (l1 l2 : List Activity) (a : Activity), a.category ∉ categories →
      getCategoryBreakdown (l1 ++ a :: l2) = getCategoryBreakdown (l1 ++ l2)) := by
  constructor
  · intro c hc
    rw [getCategoryBreakdown_eq]
    simp only [categories, List.mem_cons, List.mem_singleton, List.not_mem_nil,
      or_false] at hc
    rcases hc with rfl | rfl | rfl | rfl <;> simp [getProperty, List.lookup]
  · intro l1 l2 a ha
    simp only [categories, List.mem_cons, List.mem_singleton, List.not_mem_nil,
      or_false, not_or] at ha
    obtain ⟨h1, h2, h3, h4⟩ := ha
    rw [getCategoryBreakdown_eq, getCategoryBreakdown_eq,
      categorySum_insert_other _ a l1 l2 h1, categorySum_insert_other _ a l1 l2 h2,
      categorySum_insert_other _ a l1 l2 h3, categorySum_insert_other _ a l1 l2 h4]

theorem sumValues_getCategoryBreakdown (activities : List Activity) :
    sumValues (getCategoryBreakdown activities) =
      categorySum "transport" activities + categorySum "food" activities +
        categorySum "energy" activities + categorySum "lifestyle" activities := by
  rw [getCategoryBreakdown_eq]
  simp [sumValues]
  ring

/-- C8, as stated, fails: a record of a fifth category, dated inside the monthly
window of 5 November 2024, counts in the monthly total but in no entry of the
breakdown. -/
theorem breakdown_misses_other_category :
    startDate 0 1730764800123 "monthly" = some 1730419200000 ∧
    (1730419200000 : Int) ≤ 1730764800000 ∧ (1730764800000 : Int) ≤ 1730764800123 ∧
    sumValues (getCategoryBreakdown [⟨"travel", "hotel", 1, some 5, .date 1730764800000⟩]) = 0 ∧
    calculateTimeframeTotals 0 1730764800123
      [⟨"travel", "hotel", 1, some 5, .date 1730764800000⟩] "monthly" = 5 := by
  have hs : startDate 0 1730764800123 "monthly" = some 1730419200000 := by decide
  refine ⟨hs, by decide, by decide, ?_, ?_⟩
  · rw [sumValues_getCategoryBreakdown]
    simp [categorySum, sumEmissions]
  · rw [calculateTimeframeTotals_eq_sum, hs]
    have hk : inTimeframe (some 1730419200000)
        ⟨"travel", "hotel", 1, some 5, .date 1730764800000⟩ = true := by decide
    simp [List.filter, hk, sumEmissions]

theorem calculateTimeframeTotalsWith_add (tz now : Int) (activities : List Activity)
    (timeframe : String) :
    calculateTimeframeTotalsWith (fun x y => x + y) tz now activities timeframe =
      calculateTimeframeTotals tz now activities timeframe := rfl

theorem getCategoryBreakdownWith_add (activities : List Activity) :
    getCategoryBreakdownWith (fun x y => x + y) activities =
      getCategoryBreakdown activities := rfl

theorem breakdownStepWith_four (add : ℚ → ℚ → ℚ) (t f e l : ℚ) (a : Activity) :
    breakdownStepWith add
        [("transport", t), ("food", f), ("energy", e), ("lifestyle", l)] a =
      [("transport",
          if a.category = "transport" then add t (emissionsOrZero a.emissions) else t),
       ("food", if a.category = "food" then add f (emissionsOrZero a.emissions) else f),
       ("energy", if a.category = "energy" then add e (emissionsOrZero a.emissions) else e),
       ("lifestyle",
          if a.category = "lifestyle" then add l (emissionsOrZero a.emissions) else l)] := by
  unfold breakdownStepWith hasOwnProperty addToPropertyWith
  by_cases h1 : a.category = "transport"
  · simp [h1, List.lookup]
  by_cases h2 : a.category = "food"
  · simp [h2, List.lookup]
  by_cases h3 : a.category = "energy"
  · simp [h3, List.lookup]
  by_cases h4 : a.category = "lifestyle"
  · simp [h4, List.lookup]
  · have e1 : (a.category == "transport") = false := by simp [h1]
    have e2 : (a.category == "food") = false := by simp [h2]
    have e3 : (a.category == "energy") = false := by simp [h3]
    have e4 : (a.category == "lifestyle") = false := by simp [h4]
    simp [List.lookup, e1, e2, e3, e4, h1, h2, h3, h4]

theorem reduceEmissionsWith_filter_cons (add : ℚ → ℚ → ℚ) (c : String) (t : ℚ)
    (a : Activity) (rest : List Activity) :
    reduceEmissionsWith add
        (if a.category = c then add t (emissionsOrZero a.emissions) else t)
        (rest.filter (fun b => b.category = c)) =
      reduceEmissionsWith add t ((a :: rest).filter (fun b => b.category = c)) := by
  by_cases h : a.category = c
  · simp [h, List.filter_cons, reduceEmissionsWith]
  · simp [h, List.filter_cons, reduceEmissionsWith]

/-- Each entry of the breakdown is reached by the additions of `reduce` on the
activities of its category, in list order. -/
theorem foldl_breakdownStepWith (add : ℚ → ℚ → ℚ) (activities : List Activity)
    (t f e l : ℚ) :
    activities.foldl (breakdownStepWith add)
        [("transport", t), ("food", f), ("energy", e), ("lifestyle", l)] =
      [("transport",
          reduceEmissionsWith add t (activities.filter (fun b => b.category = "transport"))),
       ("food", reduceEmissionsWith add f (activities.filter (fun b => b.category = "food"))),
       ("energy",
          reduceEmissionsWith add e (activities.filter (fun b => b.category = "energy"))),
       ("lifestyle",
          reduceEmissionsWith add l
            (activities.filter (fun b => b.category = "lifestyle")))] := by
  induction activities generalizing t f e l with
  | nil => simp [reduceEmissionsWith]
  | cons a rest ih =>
    rw [List.foldl_cons, breakdownStepWith_four, ih]
    simp only [reduceEmissionsWith_filter_cons]

theorem getCategoryBreakdownWith_entry (add : ℚ → ℚ → ℚ) (activities : List Activity)
    (c : String) (hc : c ∈ categories) :
    getProperty (getCategoryBreakdownWith add activities) c =
      .number (reduceEmissionsWith add 0 (activities.filter (fun b => b.category = c))) := by
  unfold getCategoryBreakdownWith
  rw [foldl_breakdownStepWith]
  simp only [categories, List.mem_cons, List.mem_singleton, List.not_mem_nil,
    or_false] at hc
  rcases hc with rfl | rfl | rfl | rfl <;> simp [getProperty, List.lookup]

theorem calculateTimeframeTotalsWith_of_window (add : ℚ → ℚ → ℚ) (tz now start : Int)
    (records : List Activity) (timeframe : String)
    (hs : startDate tz now timeframe = some start)
    (hw : ∀ a ∈ records, regularDate a.date = true ∧ datedAtOrAfter start a = true) :
    calculateTimeframeTotalsWith add tz now records timeframe =
      reduceEmissionsWith add 0 records := by
  unfold calculateTimeframeTotalsWith
  rw [hs]
  congr 1
  rw [List.filter_eq_self]
  intro a ha
  rw [inTimeframe_regular start a (hw a ha).1]
  exact (hw a ha).2

/-- C8 (amended): for each of the four fixed categories `c`, when every activity
of category `c` has a regular date at or after the start of the monthly window,
the entry `c` of the breakdown equals the monthly total of the activities of
category `c`. The two are reached by the same additions in the same order, so
the equality holds for every addition `add`, exact or rounded. -/
theorem breakdown_entry_eq_monthly_total (add : ℚ → ℚ → ℚ) (tz now start : Int)
    (activities : List Activity) (c : String)
    (hs : startDate tz now "monthly" = some start)
    (hc : c ∈ categories)
    (hw : ∀ a ∈ activities, a.category = c →
      regularDate a.date = true ∧ datedAtOrAfter start a = true) :
    getProperty (getCategoryBreakdownWith add activities) c =
      .number (calculateTimeframeTotalsWith add tz now
        (activities.filter (fun a => a.category = c)) "monthly") ∧
    getProperty (getCategoryBreakdown activities) c =
      .number (calculateTimeframeTotals tz now
        (activities.filter (fun a => a.category = c)) "monthly") := by
  have hfil : ∀ a ∈ activities.filter (fun a => a.category = c),
      regularDate a.date = true ∧ datedAtOrAfter start a = true := by
    intro a ha
    obtain ⟨hmem, hcat⟩ := List.mem_filter.mp ha
    exact hw a hmem (by simpa using hcat)
  have key : ∀ op : ℚ → ℚ → ℚ, getProperty (getCategoryBreakdownWith op activities) c =
      .number (calculateTimeframeTotalsWith op tz now
        (activities.filter (fun a => a.category = c)) "monthly") := by
    intro op
    rw [getCategoryBreakdownWith_entry op activities c hc,
      calculateTimeframeTotalsWith_of_window op tz now start _ "monthly" hs hfil]
  refine ⟨key add, ?_⟩
  have h := key (fun x y => x + y)
  rwa [getCategoryBreakdownWith_add, calculateTimeframeTotalsWith_add] at h

theorem breakdown_entry_eq_monthly_total_witness :
    getProperty (getCategoryBreakdownWith (fun x y => x + y)
        [⟨"transport", "car", 10, some 1.92, .date 1730764800000⟩,
         ⟨"food", "rice", 1, some 2.7, .timestamp 1730764800⟩,
         ⟨"food", "beef", 2, some 54, .date 1730764800000⟩]) "food" =
      .number (calculateTimeframeTotalsWith (fun x y => x + y) 0 1730764800123
        ([⟨"transport", "car", 10, some 1.92, .date 1730764800000⟩,
          ⟨"food", "rice", 1, some 2.7, .timestamp 1730764800⟩,
          ⟨"food", "beef", 2, some 54, .date 1730764800000⟩].filter
            (fun a => a.category = "food")) "monthly") :=
  (breakdown_entry_eq_monthly_total (fun x y => x + y) 0 1730764800123 1730419200000 _ "food"
    (by decide) (by decide)
    (by
      intro a ha _
      simp only [List.mem_cons, List.mem_singleton, List.not_mem_nil, or_false] at ha
      rcases ha with rfl | rfl | rfl <;> exact ⟨by decide, by decide⟩)).1

/-! ## Footprint score -/

/-- C9: for every total, negative ones included, and every timeframe the score
lies between 0 and 100 inclusive. -/
theorem calculateFootprintScore_range (totalEmissions : ℚ) (timeframe : String) :
    0 ≤ calculateFootprintScore totalEmissions timeframe ∧
    calculateFootprintScore totalEmissions timeframe ≤ 100 := by
  unfold calculateFootprintScore
  simp only
  split_ifs with h1 h2 h2
  all_goals
    refine ⟨le_max_left _ _, max_le (by norm_num) ?_⟩
    linarith

/-- C10: with `d` the daily-equivalent value, the score is
`max(0, 100 - (16.5 - d) * 2)` when `d <= 16.5` and `max(0, 100 - (d - 16.5) * 3)`
when `d > 16.5`; the daily score is 67 for 0, 100 for 16.5 and 0 for 50. -/
theorem calculateFootprintScore_formula (totalEmissions : ℚ) (timeframe : String) :
    (dailyEquivalent totalEmissions timeframe ≤ 16.5 →
      calculateFootprintScore totalEmissions timeframe =
        max 0 (100 - (16.5 - dailyEquivalent totalEmissions timeframe) * 2)) ∧
    (16.5 < dailyEquivalent totalEmissions timeframe →
      calculateFootprintScore totalEmissions timeframe =
        max 0 (100 - (dailyEquivalent totalEmissions timeframe - 16.5) * 3)) ∧
    calculateFootprintScore 0 "daily" = 67 ∧
    calculateFootprintScore 16.5 "daily" = 100 ∧
    calculateFootprintScore 50 "daily" = 0 := by
  refine ⟨?_, ?_, ?_, ?_, ?_⟩
  · intro h
    unfold calculateFootprintScore
    unfold dailyEquivalent at h
    simp only [dailyEquivalent, if_pos h]
  · intro h
    unfold calculateFootprintScore
    unfold dailyEquivalent at h
    simp only [dailyEquivalent, if_neg (not_le.mpr h)]
  · unfold calculateFootprintScore; norm_num
  · unfold calculateFootprintScore; norm_num
  · unfold calculateFootprintScore; norm_num

/-- C11: for every total and every timeframe other than `daily`, the score is
the daily score of the total divided by 30; so the weekly and the monthly score
of one total are equal. -/
theorem calculateFootprintScore_non_daily (x : ℚ) (timeframe : String)
    (h : timeframe ≠ "daily") :
    calculateFootprintScore x timeframe = calculateFootprintScore (x / 30) "daily" ∧
    calculateFootprintScore x "weekly" = calculateFootprintScore x "monthly" := by
  have key : ∀ tf : String, tf ≠ "daily" →
      calculateFootprintScore x tf = calculateFootprintScore (x / 30) "daily" := by
    intro tf htf
    unfold calculateFootprintScore
    simp only [if_neg htf, if_true]
  exact ⟨key timeframe h, by rw [key "weekly" (by decide), key "monthly" (by decide)]⟩

theorem calculateFootprintScore_non_daily_witness :
    calculateFootprintScore 600 "yearly" = calculateFootprintScore (600 / 30) "daily" :=
  (calculateFootprintScore_non_daily 600 "yearly" (by decide)).1

/-- Above the average of 16.5 a larger daily total never has a larger score. -/
theorem calculateFootprintScore_antitone_above (e1 e2 : ℚ) (h1 : 16.5 ≤ e1) (h : e1 ≤ e2) :
    calculateFootprintScore e2 "daily" ≤ calculateFootprintScore e1 "daily" := by
  unfold calculateFootprintScore
  simp only [if_true]
  split_ifs with ha hb hb
  · have he1 : e1 = 16.5 := le_antisymm (by linarith) h1
    have he2 : e2 = 16.5 := le_antisymm ha (by linarith)
    rw [he1, he2]
  · exact absurd (le_trans h ha) hb
  · exact max_le_max le_rfl (by linarith)
  · exact max_le_max le_rfl (by linarith)

/-- Up to the average of 16.5 a larger daily total never has a smaller score. -/
theorem calculateFootprintScore_monotone_below (e1 e2 : ℚ) (h : e1 ≤ e2) (h2 : e2 ≤ 16.5) :
    calculateFootprintScore e1 "daily" ≤ calculateFootprintScore e2 "daily" := by
  unfold calculateFootprintScore
  simp only [if_true]
  rw [if_pos (le_trans h h2), if_pos h2]
  exact max_le_max le_rfl (by linarith)

/-- C12: a higher score does not always mean lower emissions. The daily totals
0 and 16.5 are non-negative and in order, yet their scores are 67 and 100: below
the average the score grows with the emissions. -/
theorem calculateFootprintScore_rises_below_average :
    (0 : ℚ) ≤ 0 ∧ (0 : ℚ) ≤ 16.5 ∧
    calculateFootprintScore 0 "daily" = 67 ∧
    calculateFootprintScore 16.5 "daily" = 100 ∧
    ¬ (calculateFootprintScore 0 "daily" ≥ calculateFootprintScore 16.5 "daily") := by
  have h0 : calculateFootprintScore 0 "daily" = 67 := by
    unfold calculateFootprintScore; norm_num
  have h1 : calculateFootprintScore 16.5 "daily" = 100 := by
    unfold calculateFootprintScore; norm_num
  refine ⟨le_rfl, by norm_num, h0, h1, ?_⟩
  rw [h0, h1]
  norm_num

/-! ## Badge evaluation -/

theorem foldl_checkBadge (tz now : Int) (activities : List Activity)
    (badges : List (String × Badge)) (state : List Badge × List (String × Badge)) :
    badges.foldl (checkBadge tz now activities) state =
      (state.1 ++ ((badges.map Prod.snd).filter
          (fun b => b.condition tz now activities && !b.unlocked)).map
            (fun b => { b with unlocked := true }),
       state.2 ++ badges.map (fun entry =>
          if entry.2.condition tz now activities && !entry.2.unlocked then
            (entry.1, { entry.2 with unlocked := true })
          else entry)) := by
  induction badges generalizing state with
  | nil => simp
  | cons entry rest ih =>
    rw [List.foldl_cons, ih]
    unfold checkBadge
    cases hc : entry.2.condition tz now activities <;> cases hu : entry.2.unlocked <;>
      simp [hc, hu]

/-- The array returned by `checkBadges`: the badges whose condition holds and
whose flag is not set, in the order of the object, each with its flag now set. -/
theorem checkBadges_fst (tz now : Int) (badges : List (String × Badge))
    (activities : List Activity) :
    (checkBadges tz now badges activities).1 =
      ((badges.map Prod.snd).filter
        (fun b => b.condition tz now activities && !b.unlocked)).map
          (fun b => { b with unlocked := true }) := by
  unfold checkBadges
  rw [foldl_checkBadge]
  simp

/-- The object after `checkBadges`: the flag of each returned badge is set,
nothing else changes. -/
theorem checkBadges_snd (tz now : Int) (badges : List (String × Badge))
    (activities : List Activity) :
    (checkBadges tz now badges activities).2 =
      badges.map (fun entry =>
        if entry.2.condition tz now activities && !entry.2.unlocked then
          (entry.1, { entry.2 with unlocked := true })
        else entry) := by
  unfold checkBadges
  rw [foldl_checkBadge]
  simp

theorem BADGES_keys :
    BADGES.map Prod.fst =
      ["first-steps", "week-warrior", "low-carbon", "transport-hero", "plant-power"] := by
  simp [BADGES]

theorem returned_ids_of_flags (tz now : Int) (flags : String → Bool)
    (activities : List Activity) (entries : List (String × Badge))
    (hid : ∀ entry ∈ entries, entry.2.id = entry.1) :
    ((((entries.map (fun entry => (entry.1, { entry.2 with unlocked := flags entry.1 }))).map
        Prod.snd).filter (fun b => b.condition tz now activities && !b.unlocked)).map
          (fun b => { b with unlocked := true })).map (fun b => b.id) =
      (entries.filter
        (fun entry => entry.2.condition tz now activities && !flags entry.1)).map Prod.fst := by
  induction entries with
  | nil => simp
  | cons entry rest ih =>
    have hrest := ih (fun e he => hid e (List.mem_cons_of_mem entry he))
    have hentry := hid entry (List.mem_cons_self entry rest)
    simp only [List.map_cons, List.filter_cons]
    by_cases h : (entry.2.condition tz now activities && !flags entry.1) = true
    · simp only [h, if_true, List.map_cons, hentry]
      rw [hrest]
    · simp only [h, if_false, Bool.false_eq_true]
      rw [hrest]

/-- C13: whatever the unlocked flags, `checkBadges` returns exactly the badges
whose flag is not set and whose condition holds on the activity list, in the
order first-steps, week-warrior, low-carbon, transport-hero, plant-power; a
badge whose flag was set is not returned. -/
theorem checkBadges_returns (tz now : Int) (flags : String → Bool)
    (activities : List Activity) :
    (checkBadges tz now (BADGES.withUnlocked flags) activities).1.map (fun b => b.id) =
      (BADGES.filter
        (fun entry => entry.2.condition tz now activities && !flags entry.1)).map Prod.fst ∧
    BADGES.map Prod.fst =
      ["first-steps", "week-warrior", "low-carbon", "transport-hero", "plant-power"] ∧
    (∀ id, flags id = true →
      id ∉ (checkBadges tz now (BADGES.withUnlocked flags) activities).1.map (fun b => b.id)) := by
  have hret := returned_ids_of_flags tz now flags activities BADGES (by simp [BADGES])
  have h1 : (checkBadges tz now (BADGES.withUnlocked flags) activities).1.map (fun b => b.id) =
      (BADGES.filter
        (fun entry => entry.2.condition tz now activities && !flags entry.1)).map Prod.fst := by
    rw [checkBadges_fst]
    exact hret
  refine ⟨h1, BADGES_keys, ?_⟩
  intro id hf hmem
  rw [h1] at hmem
  obtain ⟨entry, he, rfl⟩ := List.mem_map.mp hmem
  have := (List.mem_filter.mp he).2
  simp [hf] at this

theorem isUnlocked_iff (badges : List (String × Badge)) (id : String) :
    isUnlocked badges id = true ↔
      ∃ entry ∈ badges, entry.2.id = id ∧ entry.2.unlocked = true := by
  simp [isUnlocked, List.any_eq_true]

theorem mem_returned_iff (tz now : Int) (badges : List (String × Badge))
    (activities : List Activity) (id : String) :
    id ∈ (checkBadges tz now badges activities).1.map (fun b => b.id) ↔
      ∃ entry ∈ badges, entry.2.id = id ∧ entry.2.condition tz now activities = true ∧
        entry.2.unlocked = false := by
  rw [checkBadges_fst]
  constructor
  · intro h
    obtain ⟨b, hb, rfl⟩ := List.mem_map.mp h
    obtain ⟨b0, hb0, rfl⟩ := List.mem_map.mp hb
    obtain ⟨hmem, hp⟩ := List.mem_filter.mp hb0
    obtain ⟨entry, he, rfl⟩ := List.mem_map.mp hmem
    simp only [Bool.and_eq_true, Bool.not_eq_true'] at hp
    exact ⟨entry, he, rfl, hp.1, hp.2⟩
  · rintro ⟨entry, he, rfl, hc, hu⟩
    refine List.mem_map.mpr ⟨{ entry.2 with unlocked := true }, ?_, rfl⟩
    refine List.mem_map.mpr ⟨entry.2, ?_, rfl⟩
    refine List.mem_filter.mpr ⟨List.mem_map.mpr ⟨entry, he, rfl⟩, ?_⟩
    simp [hc, hu]

theorem isUnlocked_checkBadges (tz now : Int) (badges : List (String × Badge))
    (activities : List Activity) (id : String) :
    isUnlocked (checkBadges tz now badges activities).2 id = true ↔
      (isUnlocked badges id = true ∨
        id ∈ (checkBadges tz now badges activities).1.map (fun b => b.id)) := by
  rw [mem_returned_iff, isUnlocked_iff, isUnlocked_iff, checkBadges_snd]
  constructor
  · rintro ⟨entry', he', hid, hu'⟩
    obtain ⟨entry, he, rfl⟩ := List.mem_map.mp he'
    cases hc : entry.2.condition tz now activities <;> cases hu : entry.2.unlocked
    · simp [hc, hu] at hu'
    · left
      exact ⟨entry, he, by simpa [hc, hu] using hid, hu⟩
    · right
      exact ⟨entry, he, by simpa [hc, hu] using hid, hc, hu⟩
    · left
      exact ⟨entry, he, by simpa [hc, hu] using hid, hu⟩
  · rintro (⟨entry, he, hid, hu⟩ | ⟨entry, he, hid, hc, hu⟩)
    · refine ⟨_, List.mem_map.mpr ⟨entry, he, rfl⟩, ?_, ?_⟩
      · simp [hu, hid]
      · simp [hu]
    · refine ⟨_, List.mem_map.mpr ⟨entry, he, rfl⟩, ?_, ?_⟩
      · simp [hc, hu, hid]
      · simp [hc, hu]

theorem isUnlocked_checkBadgesCalls (tz : Int) (calls : List (Int × List Activity))
    (badges : List (String × Badge)) (id : String) (h : isUnlocked badges id = true) :
    isUnlocked (checkBadgesCalls tz badges calls) id = true := by
  induction calls generalizing badges with
  | nil => simpa [checkBadgesCalls] using h
  | cons call rest ih =>
    unfold checkBadgesCalls
    rw [List.foldl_cons]
    exact ih _ ((isUnlocked_checkBadges tz call.1 badges call.2 id).mpr (Or.inl h))

/-- C14: the unlock state is monotonic. Over every sequence of `checkBadges`
calls, on any activity lists and at any times, a badge that is unlocked before
the sequence is unlocked after it; and after one call the unlocked badges are
those unlocked before together with those the call returned. -/
theorem checkBadges_monotonic (tz : Int) (badges : List (String × Badge)) :
    (∀ (calls : List (Int × List Activity)) (id : String),
      isUnlocked badges id = true → isUnlocked (checkBadgesCalls tz badges calls) id = true) ∧
    (∀ (now : Int) (activities : List Activity) (id : String),
      isUnlocked (checkBadges tz now badges activities).2 id = true ↔
        (isUnlocked badges id = true ∨
          id ∈ (checkBadges tz now badges activities).1.map (fun b => b.id))) :=
  ⟨fun calls id h => isUnlocked_checkBadgesCalls tz calls badges id h,
   fun now activities id => isUnlocked_checkBadges tz now badges activities id⟩

/-- C15: with the clock held fixed, a second call of `checkBadges` on the same
activity list, right after a first one, returns the empty array, whatever the
unlock state before the first call. -/
theorem checkBadges_twice (tz now : Int) (badges : List (String × Badge))
    (activities : List Activity) :
    (checkBadges tz now (checkBadges tz now badges activities).2 activities).1 = [] := by
  rw [checkBadges_fst, checkBadges_snd]
  rw [List.map_eq_nil_iff, List.filter_eq_nil_iff]
  intro b hb
  obtain ⟨entry', he', rfl⟩ := List.mem_map.mp hb
  obtain ⟨entry, _, rfl⟩ := List.mem_map.mp he'
  cases hc : entry.2.condition tz now activities <;> cases hu : entry.2.unlocked <;>
    simp [hc, hu]

/-! ## Badge conditions -/

theorem mem_foldl_insert (xs acc : List String) (x : String) :
    x ∈ xs.foldl (fun set y => if y ∈ set then set else set ++ [y]) acc ↔ x ∈ acc ∨ x ∈ xs := by
  induction xs generalizing acc with
  | nil => simp
  | cons y ys ih =>
    rw [List.foldl_cons, ih]
    by_cases hy : y ∈ acc
    · simp only [hy, if_true, List.mem_cons]
      constructor
      · rintro (h | h)
        · exact Or.inl h
        · exact Or.inr (Or.inr h)
      · rintro (h | h | h)
        · exact Or.inl h
        · exact Or.inl (h ▸ hy)
        · exact Or.inr h
    · simp only [hy, if_false, List.mem_append, List.mem_singleton, List.mem_cons]
      tauto

theorem nodup_foldl_insert (xs acc : List String) (h : acc.Nodup) :
    (xs.foldl (fun set y => if y ∈ set then set else set ++ [y]) acc).Nodup := by
  induction xs generalizing acc with
  | nil => simpa using h
  | cons y ys ih =>
    rw [List.foldl_cons]
    apply ih
    by_cases hy : y ∈ acc
    · simpa [hy] using h
    · simp only [hy, if_false]
      rw [List.nodup_append]
      refine ⟨h, List.nodup_singleton y, ?_⟩
      intro a ha hb
      rw [List.mem_singleton] at hb
      exact hy (hb ▸ ha)

theorem mem_newSet (xs : List String) (x : String) : x ∈ newSet xs ↔ x ∈ xs := by
  unfold newSet
  rw [mem_foldl_insert]
  simp

theorem nodup_newSet (xs : List String) : (newSet xs).Nodup :=
  nodup_foldl_insert xs [] List.nodup_nil

/-- A set built from a list has as many elements as the list has distinct values. -/
theorem length_newSet (xs : List String) : (newSet xs).length = xs.dedup.length := by
  apply List.Perm.length_eq
  rw [List.perm_ext_iff_of_nodup (nodup_newSet xs) (List.nodup_dedup xs)]
  intro x
  rw [mem_newSet, List.mem_dedup]

theorem length_newSet_le (xs : List String) : (newSet xs).length ≤ xs.length := by
  rw [length_newSet]
  exact (List.dedup_sublist xs).length_le

theorem length_sort (xs : List String) : (sort xs).length = xs.length := by
  unfold sort
  exact List.length_insertionSort _ xs

/-- The week-warrior condition as the code computes it: at least 7 activities
whose date strings take at least 7 distinct values. -/
theorem week_warrior_condition_iff (tz : Int) (activities : List Activity) :
    BADGES.week_warrior.condition tz activities = true ↔
      7 ≤ activities.length ∧
      7 ≤ (activities.map (fun a => toDateString tz (newDate a.date))).dedup.length := by
  unfold BADGES.week_warrior.condition
  simp only [length_sort, length_newSet]
  by_cases h : activities.length < 7
  · simp only [h, if_true, Bool.false_eq_true, false_iff, not_and]
    intro h7
    omega
  · simp only [h, if_false, decide_eq_true_eq, ge_iff_le]
    constructor
    · intro hd
      exact ⟨by omega, hd⟩
    · exact fun hd => hd.2

/-- C16: seven activities stored with Firestore `Timestamp` dates on seven
distinct calendar days (5 to 11 November 2024) do not satisfy the week-warrior
condition: `new Date` cannot convert a `Timestamp`, every date string is
`Invalid Date`, and the set has one element. The same seven instants held as
`Date` values do satisfy it. -/
theorem week_warrior_timestamps :
    ((List.range 7).map (fun k => (⟨"transport", "bus", 5, some 0.445,
        .timestamp (1730764800 + 86400 * (k : Int))⟩ : Activity))).length = 7 ∧
    distinctDays 0 ((List.range 7).map (fun k => (⟨"transport", "bus", 5, some 0.445,
        .timestamp (1730764800 + 86400 * (k : Int))⟩ : Activity))) = 7 ∧
    BADGES.week_warrior.condition 0 ((List.range 7).map (fun k =>
        (⟨"transport", "bus", 5, some 0.445,
          .timestamp (1730764800 + 86400 * (k : Int))⟩ : Activity))) = false ∧
    BADGES.week_warrior.condition 0 ((List.range 7).map (fun k =>
        (⟨"transport", "bus", 5, some 0.445,
          .date (1730764800000 + 86400000 * (k : Int))⟩ : Activity))) = true := by
  refine ⟨by decide, by decide, ?_, ?_⟩
  · rw [Bool.eq_false_iff, Ne, week_warrior_condition_iff]
    decide
  · rw [week_warrior_condition_iff]
    decide

/-- C17: seven activities dated every other day (5, 7, ..., 17 November 2024)
satisfy the week-warrior condition, yet their calendar days contain no seven
consecutive days. -/
theorem week_warrior_not_consecutive :
    BADGES.week_warrior.condition 0 ((List.range 7).map (fun k =>
        (⟨"transport", "bus", 5, some 0.445,
          .date (1730764800000 + 172800000 * (k : Int))⟩ : Activity))) = true ∧
    hasSevenConsecutiveDays (calendarDays 0 ((List.range 7).map (fun k =>
        (⟨"transport", "bus", 5, some 0.445,
          .date (1730764800000 + 172800000 * (k : Int))⟩ : Activity)))) = false := by
  refine ⟨?_, by decide⟩
  rw [week_warrior_condition_iff]
  decide

/-- C18: at every time and for every activity list the low-carbon condition
holds if and only if the rolling weekly total is strictly below 70; a total of
exactly 70 does not satisfy it, as for one record of 70 kg dated at `now`. -/
theorem low_carbon_condition_iff (tz now : Int) (activities : List Activity) :
    (BADGES.low_carbon.condition tz now activities = true ↔
      calculateTimeframeTotals tz now activities "weekly" < 70) ∧
    (calculateTimeframeTotals tz now activities "weekly" = 70 →
      BADGES.low_carbon.condition tz now activities = false) ∧
    calculateTimeframeTotals 0 1730764800000
      [⟨"lifestyle", "electronics", 1.4, some 70, .date 1730764800000⟩] "weekly" = 70 ∧
    BADGES.low_carbon.condition 0 1730764800000
      [⟨"lifestyle", "electronics", 1.4, some 70, .date 1730764800000⟩] = false := by
  have hiff : BADGES.low_carbon.condition tz now activities = true ↔
      calculateTimeframeTotals tz now activities "weekly" < 70 := by
    simp [BADGES.low_carbon.condition]
  have hex : calculateTimeframeTotals 0 1730764800000
      [⟨"lifestyle", "electronics", 1.4, some 70, .date 1730764800000⟩] "weekly" = 70 := by
    have hs : startDate 0 1730764800000 "weekly" = some 1730160000000 := by decide
    have hk : inTimeframe (some 1730160000000)
        ⟨"lifestyle", "electronics", 1.4, some 70, .date 1730764800000⟩ = true := by decide
    rw [calculateTimeframeTotals_eq_sum, hs]
    simp [List.filter, hk, sumEmissions]
  refine ⟨hiff, ?_, hex, ?_⟩
  · intro h
    simp [BADGES.low_carbon.condition, h]
  · simp [BADGES.low_carbon.condition, hex]

/-- C19: one record of 54 kg dated at `now` satisfies the low-carbon condition
(the weekly total 54 is below 70), yet the emissions of its calendar day, a day
inside the window, are 54 and not under 10. -/
theorem low_carbon_heavy_day :
    BADGES.low_carbon.condition 0 1730764800000
      [⟨"food", "beef", 2, some 54, .date 1730764800000⟩] = true ∧
    startDate 0 1730764800000 "weekly" = some 1730160000000 ∧
    calendarDay 0 (.date 1730764800000) = some 20032 ∧
    Day 1730160000000 ≤ 20032 ∧ 20032 ≤ Day 1730764800000 ∧
    dayEmissions 0 20032 [⟨"food", "beef", 2, some 54, .date 1730764800000⟩] = 54 ∧
    ¬ (dayEmissions 0 20032 [⟨"food", "beef", 2, some 54, .date 1730764800000⟩] < 10) := by
  have hs : startDate 0 1730764800000 "weekly" = some 1730160000000 := by decide
  have hk : inTimeframe (some 1730160000000)
      ⟨"food", "beef", 2, some 54, .date 1730764800000⟩ = true := by decide
  have hd : calendarDay 0 (.date 1730764800000) = some 20032 := by decide
  have he : dayEmissions 0 20032 [⟨"food", "beef", 2, some 54, .date 1730764800000⟩] = 54 := by
    simp [dayEmissions, List.filter, hd, sumEmissions]
  refine ⟨?_, hs, hd, by decide, by decide, he, ?_⟩
  · have ht : calculateTimeframeTotals 0 1730764800000
        [⟨"food", "beef", 2, some 54, .date 1730764800000⟩] "weekly" = 54 := by
      rw [calculateTimeframeTotals_eq_sum, hs]
      simp [List.filter, hk, sumEmissions]
    simp [BADGES.low_carbon.condition, ht]
    norm_num
  · rw [he]
    norm_num

theorem filter_length_eq_countP (p : Activity → Bool) (l : List Activity) :
    (l.filter p).length = l.countP p := by
  rw [List.countP_eq_length_filter]

/-- C20: the transport-hero condition holds exactly when at least 10 activities
have category transport and a type among bicycle, walking, train and bus; the
plant-power condition exactly when at least 20 have category food and a type
among vegetables, fruits, tofu and nuts. An activity of another category,
whatever its type, does not change either count. -/
theorem transport_hero_plant_power_iff (activities : List Activity) :
    (BADGES.transport_hero.condition activities = true ↔
      10 ≤ activities.countP (fun a =>
        decide (a.category = "transport" ∧ a.type ∈ ["bicycle", "walking", "train", "bus"]))) ∧
    (BADGES.plant_power.condition activities = true ↔
      20 ≤ activities.countP (fun a =>
        decide (a.category = "food" ∧ a.type ∈ ["vegetables", "fruits", "tofu", "nuts"]))) ∧
    (∀ (l1 l2 : List Activity) (a : Activity), a.category ≠ "transport" →
      BADGES.transport_hero.condition (l1 ++ a :: l2) =
        BADGES.transport_hero.condition (l1 ++ l2)) ∧
    (∀ (l1 l2 : List Activity) (a : Activity), a.category ≠ "food" →
      BADGES.plant_power.condition (l1 ++ a :: l2) =
        BADGES.plant_power.condition (l1 ++ l2)) := by
  refine ⟨?_, ?_, ?_, ?_⟩
  · unfold BADGES.transport_hero.condition
    simp only [filter_length_eq_countP, decide_eq_true_eq, ge_iff_le]
    have : (fun a : Activity => decide (a.category = "transport") &&
          ["bicycle", "walking", "train", "bus"].contains a.type) =
        (fun a : Activity => decide (a.category = "transport" ∧
          a.type ∈ ["bicycle", "walking", "train", "bus"])) := by
      funext a
      simp [Bool.decide_and]
    rw [this]
  · unfold BADGES.plant_power.condition
    simp only [filter_length_eq_countP, decide_eq_true_eq, ge_iff_le]
    have : (fun a : Activity => decide (a.category = "food") &&
          ["vegetables", "fruits", "tofu", "nuts"].contains a.type) =
        (fun a : Activity => decide (a.category = "food" ∧
          a.type ∈ ["vegetables", "fruits", "tofu", "nuts"])) := by
      funext a
      simp [Bool.decide_and]
    rw [this]
  · intro l1 l2 a ha
    unfold BADGES.transport_hero.condition
    simp [List.filter_append, List.filter_cons, ha]
  · intro l1 l2 a ha
    unfold BADGES.plant_power.condition
    simp [List.filter_append, List.filter_cons, ha]

/-! ## Eco tips -/

theorem filter_length_pos_iff (p : Activity → Bool) (l : List Activity) :
    (l.filter p).length > 0 ↔ ∃ a ∈ l, p a = true := by
  rw [gt_iff_lt, List.length_pos, ne_eq, List.filter_eq_nil_iff]
  push_neg
  rfl

theorem carUsage_pos_iff (userActivities : List Activity) :
    ((userActivities.filter (fun a => a.category = "transport")).filter
        (fun a => a.type = "car")).length > 0 ↔
      ∃ a ∈ userActivities, a.category = "transport" ∧ a.type = "car" := by
  rw [List.filter_filter, filter_length_pos_iff]
  simp only [Bool.and_eq_true, decide_eq_true_eq]
  constructor
  · rintro ⟨a, ha, h1, h2⟩
    exact ⟨a, ha, h2, h1⟩
  · rintro ⟨a, ha, h1, h2⟩
    exact ⟨a, ha, h2, h1⟩

theorem highEmissionFood_pos_iff (userActivities : List Activity) :
    ((userActivities.filter (fun a => a.category = "food")).filter
        (fun a => ["beef", "lamb", "cheese"].contains a.type)).length > 0 ↔
      ∃ a ∈ userActivities, a.category = "food" ∧ a.type ∈ ["beef", "lamb", "cheese"] := by
  rw [List.filter_filter, filter_length_pos_iff]
  simp only [Bool.and_eq_true, decide_eq_true_eq]
  constructor
  · rintro ⟨a, ha, h1, h2⟩
    exact ⟨a, ha, h2, by simpa using h1⟩
  · rintro ⟨a, ha, h1, h2⟩
    exact ⟨a, ha, by simpa using h2, h1⟩

/-- Before the sort the array holds the tips in rule order. -/
theorem pushedTips_eq (userActivities : List Activity) (totalEmissions : ℚ) :
    pushedTips userActivities totalEmissions =
      tipsInRuleOrder userActivities totalEmissions := by
  unfold pushedTips tipsInRuleOrder
  simp only [carUsage_pos_iff, highEmissionFood_pos_iff]
  split_ifs <;> rfl

theorem rank_high : priorityRank "high" = 3 := by
  simp [priorityRank, priorityOrder, List.lookup]

theorem rank_medium : priorityRank "medium" = 2 := by
  simp [priorityRank, priorityOrder, List.lookup]

theorem rank_low : priorityRank "low" = 1 := by
  simp [priorityRank, priorityOrder, List.lookup]

/-- The tips in rule order are already in the order the comparator asks for. -/
theorem tipsInRuleOrder_sorted (userActivities : List Activity) (totalEmissions : ℚ) :
    List.Sorted (fun a b => comparePriority a b ≤ 0)
      (tipsInRuleOrder userActivities totalEmissions) := by
  unfold tipsInRuleOrder
  split_ifs <;>
  simp [List.Sorted, comparePriority, tipTransportCar, tipFoodPlantBased,
    tipEnergySaving, tipReduceWaste, tipLocalSeasonal, rank_high, rank_medium, rank_low] <;>
  norm_num

/-- The sort leaves the array as it was built. -/
theorem getEcoTips_eq (userActivities : List Activity) (totalEmissions : ℚ) :
    getEcoTips userActivities totalEmissions =
      tipsInRuleOrder userActivities totalEmissions := by
  unfold getEcoTips sortTips
  rw [pushedTips_eq]
  exact List.Sorted.insertionSort_eq (tipsInRuleOrder_sorted userActivities totalEmissions)

/-- C23: the result of `getEcoTips` holds the `transport-car` tip exactly when
some activity has category transport and type car, the `food-plant-based` tip
exactly when some activity has category food and a type among beef, lamb and
cheese, the `energy-saving` tip exactly when `totalEmissions > 20`, and always
one `reduce-waste` and one `local-seasonal` tip; no tip appears twice and the
result has between 2 and 5 tips. -/
theorem getEcoTips_contents (userActivities : List Activity) (totalEmissions : ℚ) :
    ("transport-car" ∈ (getEcoTips userActivities totalEmissions).map (fun t => t.id) ↔
      ∃ a ∈ userActivities, a.category = "transport" ∧ a.type = "car") ∧
    ("food-plant-based" ∈ (getEcoTips userActivities totalEmissions).map (fun t => t.id) ↔
      ∃ a ∈ userActivities, a.category = "food" ∧ a.type ∈ ["beef", "lamb", "cheese"]) ∧
    ("energy-saving" ∈ (getEcoTips userActivities totalEmissions).map (fun t => t.id) ↔
      totalEmissions > 20) ∧
    ((getEcoTips userActivities totalEmissions).map (fun t => t.id)).count "reduce-waste" = 1 ∧
    ((getEcoTips userActivities totalEmissions).map (fun t => t.id)).count "local-seasonal" = 1 ∧
    ((getEcoTips userActivities totalEmissions).map (fun t => t.id)).Nodup ∧
    2 ≤ (getEcoTips userActivities totalEmissions).length ∧
    (getEcoTips userActivities totalEmissions).length ≤ 5 := by
  rw [getEcoTips_eq]
  unfold tipsInRuleOrder
  split_ifs with h1 h2 h3 h3 h2 h3 h3 <;>
  simp_all [tipTransportCar, tipFoodPlantBased, tipEnergySaving, tipReduceWaste,
    tipLocalSeasonal, List.count_cons]

/-- C24: the list returned by `getEcoTips` is in non-increasing priority rank
(high 3, medium 2, low 1); tips of one priority stand in the order in which
the rules pushed them; and the ids follow the order transport-car,
food-plant-based, energy-saving, reduce-waste, local-seasonal. -/
theorem getEcoTips_ordered (userActivities : List Activity) (totalEmissions : ℚ) :
    List.Pairwise (fun a b => priorityRank a.priority ≥ priorityRank b.priority)
      (getEcoTips userActivities totalEmissions) ∧
    (∀ p : String, (getEcoTips userActivities totalEmissions).filter (fun t => t.priority = p) =
      (pushedTips userActivities totalEmissions).filter (fun t => t.priority = p)) ∧
    List.Perm (getEcoTips userActivities totalEmissions)
      (pushedTips userActivities totalEmissions) ∧
    List.Sublist ((getEcoTips userActivities totalEmissions).map (fun t => t.id))
      ["transport-car", "food-plant-based", "energy-saving", "reduce-waste",
       "local-seasonal"] := by
  refine ⟨?_, ?_, ?_, ?_⟩
  · have hs := tipsInRuleOrder_sorted userActivities totalEmissions
    rw [getEcoTips_eq]
    refine List.Pairwise.imp ?_ hs
    intro a b hab
    unfold comparePriority at hab
    linarith
  · intro p
    rw [getEcoTips_eq, pushedTips_eq]
  · rw [getEcoTips_eq, pushedTips_eq]
  · rw [getEcoTips_eq]
    unfold tipsInRuleOrder
    split_ifs <;> decide

/-- C29: the sort at the end of `getEcoTips` changes nothing: the returned list
is the list of the tips in rule order, each kept when its rule fired, and its
last element is the `local-seasonal` tip. -/
theorem getEcoTips_sort_is_identity (userActivities : List Activity) (totalEmissions : ℚ) :
    getEcoTips userActivities totalEmissions =
      tipsInRuleOrder userActivities totalEmissions ∧
    sortTips (pushedTips userActivities totalEmissions) =
      pushedTips userActivities totalEmissions ∧
    (getEcoTips userActivities totalEmissions).getLast? = some tipLocalSeasonal := by
  have h := getEcoTips_eq userActivities totalEmissions
  refine ⟨h, ?_, ?_⟩
  · have h2 := h
    unfold getEcoTips at h2
    rw [h2, pushedTips_eq]
  · rw [h]
    unfold tipsInRuleOrder
    split_ifs <;> simp

/-! ## Further properties of the calculator and the badges -/

/-- C25, as stated, fails: with a `null` category the call returns the number 0
and raises nothing. -/
theorem calculateEmissions_null_category_returns :
    calculateEmissions "" ⟨"car", none, 10, none⟩ = .real 0 :=
  calculateEmissions_other_category "" "car" none none 10 (by simp) (by simp) (by simp) (by simp)

/-- C25 (amended): for every type and amount, `calculateEmissions` called with
a `null` or missing category returns 0; the function has no check of its
input and no error path. -/
theorem calculateEmissions_null_category (activity type : String) (amount : ℚ)
    (unit : Option String) :
    calculateEmissions activity ⟨type, none, amount, unit⟩ = .real 0 :=
  calculateEmissions_other_category activity type none unit amount
    (by simp) (by simp) (by simp) (by simp)

/-- C27: the early return of the week-warrior condition is redundant: the
condition equals the test on the number of distinct dates alone, which is
already false on a list of fewer than 7 activities. -/
theorem week_warrior_early_return_redundant (tz : Int) (activities : List Activity) :
    BADGES.week_warrior.condition tz activities =
      weekWarriorWithoutEarlyReturn tz activities ∧
    (activities.length < 7 → weekWarriorWithoutEarlyReturn tz activities = false) := by
  have hle : (activities.map (fun a => toDateString tz (newDate a.date))).dedup.length ≤
      activities.length := by
    have h := (List.dedup_sublist
      (activities.map (fun a => toDateString tz (newDate a.date)))).length_le
    rwa [List.length_map] at h
  constructor
  · rw [Bool.eq_iff_iff, week_warrior_condition_iff]
    unfold weekWarriorWithoutEarlyReturn
    rw [decide_eq_true_eq]
    constructor
    · exact fun h => h.2
    · exact fun h => ⟨le_trans h hle, h⟩
  · intro h
    unfold weekWarriorWithoutEarlyReturn
    rw [decide_eq_false_iff_not]
    omega

/-- C28: on the empty activity list the low-carbon condition holds, at every
time, and the other four conditions fail; so `checkBadges([])` with every badge
locked returns exactly the low-carbon badge. -/
theorem checkBadges_empty (tz now : Int) :
    BADGES.first_steps.condition [] = false ∧
    BADGES.week_warrior.condition tz [] = false ∧
    BADGES.low_carbon.condition tz now [] = true ∧
    BADGES.transport_hero.condition [] = false ∧
    BADGES.plant_power.condition [] = false ∧
    (checkBadges tz now BADGES []).1.map (fun b => b.id) = ["low-carbon"] := by
  have h1 : BADGES.first_steps.condition [] = false := by decide
  have h2 : BADGES.week_warrior.condition tz [] = false := by
    simp [BADGES.week_warrior.condition]
  have h3 : BADGES.low_carbon.condition tz now [] = true := by
    simp [BADGES.low_carbon.condition, calculateTimeframeTotals_nil]
  have h4 : BADGES.transport_hero.condition [] = false := by decide
  have h5 : BADGES.plant_power.condition [] = false := by decide
  refine ⟨h1, h2, h3, h4, h5, ?_⟩
  rw [checkBadges_fst]
  simp [BADGES, List.filter_cons, h1, h2, h3, h4, h5]

/-! ## Badge progress -/

theorem progress_ratio (n : ℕ) (d : ℚ) (hd : 0 < d) :
    0 ≤ min 100 (((n : ℚ) / d) * 100) ∧ min 100 (((n : ℚ) / d) * 100) ≤ 100 ∧
    (min 100 (((n : ℚ) / d) * 100) = 100 ↔ d ≤ (n : ℚ)) := by
  have hn : (0 : ℚ) ≤ (n : ℚ) := Nat.cast_nonneg n
  have h0 : 0 ≤ ((n : ℚ) / d) * 100 := by positivity
  refine ⟨le_min (by norm_num) h0, min_le_left _ _, ?_⟩
  rw [min_eq_left_iff]
  constructor
  · intro h
    have h1 : 1 ≤ (n : ℚ) / d := by linarith
    exact (one_le_div hd).mp h1
  · intro h
    have h1 : 1 ≤ (n : ℚ) / d := (one_le_div hd).mpr h
    linarith

theorem getProgress_first_steps (tz : Int) (activities : List Activity) :
    getProgress tz "first-steps" activities = if activities.length ≥ 1 then 100 else 0 := by
  unfold getProgress
  by_cases h : activities.length ≥ 1
  · simp [h]
  · have h0 : activities.length = 0 := by omega
    simp [h0]

theorem getProgress_week_warrior (tz : Int) (activities : List Activity) :
    getProgress tz "week-warrior" activities =
      if activities.length < 7 then ((activities.length : ℚ) / 7) * 100
      else min 100 ((((activities.map
        (fun a => toDateString tz (newDate a.date))).dedup.length : ℚ) / 7) * 100) := by
  unfold getProgress
  simp only [length_sort, length_newSet]

/-- The low-carbon progress is computed from the emissions of all the
activities given, whatever their dates. -/
theorem getProgress_low_carbon (tz : Int) (activities : List Activity) :
    getProgress tz "low-carbon" activities =
      if sumEmissions activities > 70 then
        max (-100) (((70 - sumEmissions activities) / 70) * 100)
      else min 100 (((70 - sumEmissions activities) / 70) * 100) := by
  unfold getProgress
  simp only [foldl_add_emissions, zero_add]

theorem getProgress_transport_hero (tz : Int) (activities : List Activity) :
    getProgress tz "transport-hero" activities =
      min 100 ((((activities.filter (fun a =>
        a.category = "transport" &&
          ["bicycle", "walking", "train", "bus"].contains a.type)).length : ℚ) / 10) * 100) := by
  unfold getProgress
  rfl

theorem getProgress_plant_power (tz : Int) (activities : List Activity) :
    getProgress tz "plant-power" activities =
      min 100 ((((activities.filter (fun a =>
        a.category = "food" &&
          ["vegetables", "fruits", "tofu", "nuts"].contains a.type)).length : ℚ) / 20) * 100) := by
  unfold getProgress
  rfl

/-- The low-carbon progress lies between -100 and 100 and is negative exactly
when the emissions of all the activities given sum to more than 70. -/
theorem getProgress_low_carbon_range (tz : Int) (activities : List Activity) :
    -100 ≤ getProgress tz "low-carbon" activities ∧
    getProgress tz "low-carbon" activities ≤ 100 ∧
    (getProgress tz "low-carbon" activities < 0 ↔ sumEmissions activities > 70) := by
  rw [getProgress_low_carbon]
  by_cases h : sumEmissions activities > 70
  · rw [if_pos h]
    have hneg : ((70 - sumEmissions activities) / 70) * 100 < 0 := by
      have : (70 - sumEmissions activities) / 70 < 0 :=
        div_neg_of_neg_of_pos (by linarith) (by norm_num)
      linarith
    refine ⟨le_max_left _ _, max_le (by norm_num) (by linarith), ?_⟩
    simp only [h, iff_true]
    exact max_lt (by norm_num) hneg
  · rw [if_neg h]
    have hpos : 0 ≤ ((70 - sumEmissions activities) / 70) * 100 := by
      have : 0 ≤ (70 - sumEmissions activities) / 70 :=
        div_nonneg (by linarith) (by norm_num)
      linarith
    refine ⟨le_trans (by norm_num) (le_min (by norm_num : (0 : ℚ) ≤ 100) hpos),
      min_le_left _ _, ?_⟩
    simp only [h, iff_false, not_lt]
    exact le_min (by norm_num) hpos

theorem ratio_hits_branch (n d : ℕ) (hd : d = 7 ∨ d = 10 ∨ d = 20) (hn : n < d) :
    ((n : ℚ) / d) * 100 = 0 ∨
      (((n : ℚ) / d) * 100 ≥ 51 ∧ ((n : ℚ) / d) * 100 ≤ 99) ∨
      (((n : ℚ) / d) * 100 ≥ 1 ∧ ((n : ℚ) / d) * 100 ≤ 50) := by
  rcases hd with rfl | rfl | rfl <;> interval_cases n <;> norm_num

/-- For the four counting badges the progress always falls in one of the
branches of `getBadgeColorByProgress` before the fallback. -/
theorem getProgress_counting_badges_hit_branch (tz : Int) (badgeId : String)
    (activities : List Activity)
    (hb : badgeId = "first-steps" ∨ badgeId = "week-warrior" ∨ badgeId = "transport-hero" ∨
      badgeId = "plant-power") :
    getProgress tz badgeId activities = 0 ∨ getProgress tz badgeId activities = 100 ∨
      (getProgress tz badgeId activities ≥ 51 ∧ getProgress tz badgeId activities ≤ 99) ∨
      (getProgress tz badgeId activities ≥ 1 ∧ getProgress tz badgeId activities ≤ 50) := by
  have key : ∀ (n d : ℕ), (d = 7 ∨ d = 10 ∨ d = 20) →
      min 100 (((n : ℚ) / d) * 100) = 0 ∨ min 100 (((n : ℚ) / d) * 100) = 100 ∨
      (min 100 (((n : ℚ) / d) * 100) ≥ 51 ∧ min 100 (((n : ℚ) / d) * 100) ≤ 99) ∨
      (min 100 (((n : ℚ) / d) * 100) ≥ 1 ∧ min 100 (((n : ℚ) / d) * 100) ≤ 50) := by
    intro n d hd
    have hdpos : (0 : ℚ) < (d : ℚ) := by
      rcases hd with rfl | rfl | rfl <;> norm_num
    by_cases hn : n < d
    · have hlt : ((n : ℚ) / d) * 100 < 100 := by
        have : (n : ℚ) / d < 1 := (div_lt_one hdpos).mpr (by exact_mod_cast hn)
        linarith
      rw [min_eq_right (le_of_lt hlt)]
      rcases ratio_hits_branch n d hd hn with h | h | h
      · exact Or.inl h
      · exact Or.inr (Or.inr (Or.inl h))
      · exact Or.inr (Or.inr (Or.inr h))
    · right; left
      exact (progress_ratio n d hdpos).2.2.mpr (by exact_mod_cast not_lt.mp hn)
  rcases hb with rfl | rfl | rfl | rfl
  · rw [getProgress_first_steps]
    split_ifs
    · exact Or.inr (Or.inl rfl)
    · exact Or.inl rfl
  · rw [getProgress_week_warrior]
    split_ifs with h
    · rcases ratio_hits_branch activities.length 7 (Or.inl rfl) h with h | h | h
      · exact Or.inl (by exact_mod_cast h)
      · exact Or.inr (Or.inr (Or.inl (by exact_mod_cast h)))
      · exact Or.inr (Or.inr (Or.inr (by exact_mod_cast h)))
    · exact_mod_cast key _ 7 (Or.inl rfl)
  · rw [getProgress_transport_hero]
    exact_mod_cast key _ 10 (Or.inr (Or.inl rfl))
  · rw [getProgress_plant_power]
    exact_mod_cast key _ 20 (Or.inr (Or.inr rfl))

/-- C30: for first-steps, week-warrior, transport-hero and plant-power, on
every activity list, the progress lies between 0 and 100 and is 100 exactly
when the condition of that badge in `BADGES` holds on the list. -/
theorem getProgress_full_iff_condition (tz now : Int) (activities : List Activity) :
    BADGES.map (fun entry => (entry.1, entry.2.condition tz now activities)) =
      [("first-steps", BADGES.first_steps.condition activities),
       ("week-warrior", BADGES.week_warrior.condition tz activities),
       ("low-carbon", BADGES.low_carbon.condition tz now activities),
       ("transport-hero", BADGES.transport_hero.condition activities),
       ("plant-power", BADGES.plant_power.condition activities)] ∧
    (0 ≤ getProgress tz "first-steps" activities ∧
      getProgress tz "first-steps" activities ≤ 100 ∧
      (getProgress tz "first-steps" activities = 100 ↔
        BADGES.first_steps.condition activities = true)) ∧
    (0 ≤ getProgress tz "week-warrior" activities ∧
      getProgress tz "week-warrior" activities ≤ 100 ∧
      (getProgress tz "week-warrior" activities = 100 ↔
        BADGES.week_warrior.condition tz activities = true)) ∧
    (0 ≤ getProgress tz "transport-hero" activities ∧
      getProgress tz "transport-hero" activities ≤ 100 ∧
      (getProgress tz "transport-hero" activities = 100 ↔
        BADGES.transport_hero.condition activities = true)) ∧
    (0 ≤ getProgress tz "plant-power" activities ∧
      getProgress tz "plant-power" activities ≤ 100 ∧
      (getProgress tz "plant-power" activities = 100 ↔
        BADGES.plant_power.condition activities = true)) := by
  refine ⟨rfl, ?_, ?_, ?_, ?_⟩
  · rw [getProgress_first_steps]
    unfold BADGES.first_steps.condition
    by_cases h : activities.length ≥ 1
    · simp [h]
    · simp [h]
  · rw [getProgress_week_warrior, week_warrior_condition_iff]
    by_cases h : activities.length < 7
    · rw [if_pos h]
      have hlt : (activities.length : ℚ) < 7 := by exact_mod_cast h
      have hge : (0 : ℚ) ≤ (activities.length : ℚ) := Nat.cast_nonneg _
      refine ⟨by positivity, by linarith, ?_⟩
      constructor
      · intro h100
        linarith
      · intro h7
        omega
    · rw [if_neg h]
      have hr := progress_ratio
        (activities.map (fun a => toDateString tz (newDate a.date))).dedup.length 7
        (by norm_num)
      refine ⟨hr.1, hr.2.1, ?_⟩
      rw [hr.2.2]
      constructor
      · intro h7
        exact ⟨by omega, by exact_mod_cast h7⟩
      · intro h7
        exact_mod_cast h7.2
  · rw [getProgress_transport_hero]
    have hr := progress_ratio (activities.filter (fun a =>
        a.category = "transport" &&
          ["bicycle", "walking", "train", "bus"].contains a.type)).length 10 (by norm_num)
    refine ⟨hr.1, hr.2.1, ?_⟩
    rw [hr.2.2]
    unfold BADGES.transport_hero.condition
    simp only [decide_eq_true_eq, ge_iff_le]
    constructor
    · intro h
      exact_mod_cast h
    · intro h
      exact_mod_cast h
  · rw [getProgress_plant_power]
    have hr := progress_ratio (activities.filter (fun a =>
        a.category = "food" &&
          ["vegetables", "fruits", "tofu", "nuts"].contains a.type)).length 20 (by norm_num)
    refine ⟨hr.1, hr.2.1, ?_⟩
    rw [hr.2.2]
    unfold BADGES.plant_power.condition
    simp only [decide_eq_true_eq, ge_iff_le]
    constructor
    · intro h
      exact_mod_cast h
    · intro h
      exact_mod_cast h

/-- C21: a record of 100 kg dated 1 October 2024 is outside the rolling week of
5 November 2024, so the weekly total is 0, not above 70, and the low-carbon
condition holds; yet the low-carbon progress, computed from all the records
whatever their dates, is -300/7, negative. -/
theorem getProgress_low_carbon_ignores_window :
    calculateTimeframeTotals 0 1730764800000
      [⟨"lifestyle", "electronics", 2, some 100, .date 1727740800000⟩] "weekly" = 0 ∧
    BADGES.low_carbon.condition 0 1730764800000
      [⟨"lifestyle", "electronics", 2, some 100, .date 1727740800000⟩] = true ∧
    getProgress 0 "low-carbon"
      [⟨"lifestyle", "electronics", 2, some 100, .date 1727740800000⟩] = -300 / 7 ∧
    getProgress 0 "low-carbon"
      [⟨"lifestyle", "electronics", 2, some 100, .date 1727740800000⟩] < 0 := by
  have hs : startDate 0 1730764800000 "weekly" = some 1730160000000 := by decide
  have hk : inTimeframe (some 1730160000000)
      ⟨"lifestyle", "electronics", 2, some 100, .date 1727740800000⟩ = false := by decide
  have ht : calculateTimeframeTotals 0 1730764800000
      [⟨"lifestyle", "electronics", 2, some 100, .date 1727740800000⟩] "weekly" = 0 := by
    rw [calculateTimeframeTotals_eq_sum, hs]
    simp [List.filter, hk, sumEmissions]
  have hp : getProgress 0 "low-carbon"
      [⟨"lifestyle", "electronics", 2, some 100, .date 1727740800000⟩] = -300 / 7 := by
    rw [getProgress_low_carbon]
    simp [sumEmissions]
    norm_num
  refine ⟨ht, ?_, hp, ?_⟩
  · simp [BADGES.low_carbon.condition, ht]
  · rw [hp]
    norm_num

/-- C26: one bus ride of 5 km (0.445 kg) gives the low-carbon progress
13911/140, about 99.36: not negative, not 0, not 100, not from 51 to 99 and
not from 1 to 50. `getBadgeColorByProgress` takes its final fallback branch and
reports the badge as locked. -/
theorem getProgress_between_ranges :
    getProgress 0 "low-carbon"
      [⟨"transport", "bus", 5, some 0.445, .timestamp 1730764800⟩] = 13911 / 140 ∧
    ¬ ((13911 / 140 : ℚ) < 0 ∨ (13911 / 140 : ℚ) = 0 ∨ (13911 / 140 : ℚ) = 100 ∨
        ((13911 / 140 : ℚ) ≥ 51 ∧ (13911 / 140 : ℚ) ≤ 99) ∨
        ((13911 / 140 : ℚ) ≥ 1 ∧ (13911 / 140 : ℚ) ≤ 50)) ∧
    getBadgeColorByProgress (getProgress 0 "low-carbon"
      [⟨"transport", "bus", 5, some 0.445, .timestamp 1730764800⟩]) =
        { background := "bg-gray-200", border := "border-gray-200", isLocked := true } := by
  have hp : getProgress 0 "low-carbon"
      [⟨"transport", "bus", 5, some 0.445, .timestamp 1730764800⟩] = 13911 / 140 := by
    rw [getProgress_low_carbon]
    simp [sumEmissions]
    norm_num
  refine ⟨hp, by norm_num, ?_⟩
  rw [hp]
  unfold getBadgeColorByProgress
  norm_num

/-! ## The unlocked list of the badges page -/

/-- The stored array stays free of duplicates under `arrayUnion`. -/
theorem nodup_arrayUnion (stored elements : List String) (h : stored.Nodup) :
    (arrayUnion stored elements).Nodup :=
  nodup_foldl_insert elements stored h

/-- The array of the user document after `checkForNewBadges` has no duplicates
when it had none before. -/
theorem checkForNewBadges_stored_nodup (tz now : Int) (activities : List Activity)
    (page : BadgesPage) (h : page.storedBadges.Nodup) :
    (checkForNewBadges tz now activities page).storedBadges.Nodup := by
  unfold checkForNewBadges
  simp only
  split_ifs
  · exact nodup_arrayUnion _ _ h
  · exact h

theorem checkBadges_one_bus_ride :
    (checkBadges 0 1730764800000 BADGES
      [⟨"transport", "bus", 5, some 0.445, .timestamp 1730764800⟩]).1.map (fun b => b.id) =
      ["first-steps", "low-carbon"] := by
  have h1 : BADGES.first_steps.condition
      [⟨"transport", "bus", 5, some 0.445, .timestamp 1730764800⟩] = true := by decide
  have h2 : BADGES.week_warrior.condition 0
      [⟨"transport", "bus", 5, some 0.445, .timestamp 1730764800⟩] = false := by
    simp [BADGES.week_warrior.condition]
  have hs : startDate 0 1730764800000 "weekly" = some 1730160000000 := by decide
  have hk : inTimeframe (some 1730160000000)
      ⟨"transport", "bus", 5, some 0.445, .timestamp 1730764800⟩ = true := by decide
  have ht : calculateTimeframeTotals 0 1730764800000
      [⟨"transport", "bus", 5, some 0.445, .timestamp 1730764800⟩] "weekly" = 0.445 := by
    rw [calculateTimeframeTotals_eq_sum, hs]
    simp [List.filter, hk, sumEmissions]
  have h3 : BADGES.low_carbon.condition 0 1730764800000
      [⟨"transport", "bus", 5, some 0.445, .timestamp 1730764800⟩] = true := by
    simp [BADGES.low_carbon.condition, ht]
    norm_num
  have h4 : BADGES.transport_hero.condition
      [⟨"transport", "bus", 5, some 0.445, .timestamp 1730764800⟩] = false := by decide
  have h5 : BADGES.plant_power.condition
      [⟨"transport", "bus", 5, some 0.445, .timestamp 1730764800⟩] = false := by decide
  rw [checkBadges_fst]
  simp [BADGES, List.filter_cons, h1, h2, h3, h4, h5]

/-- C22: on a page whose unlocked list is `[first-steps]`, loaded from the user
document while the flags of `BADGES` are all unset, one logged bus ride makes
`checkBadges` return first-steps and low-carbon; `checkForNewBadges` appends
both ids to the list in the component state, which then holds first-steps
twice. The array of the user document, updated with `arrayUnion`, holds each id
once. -/
theorem checkForNewBadges_appends_duplicate :
    (["first-steps"] : List String).Nodup ∧
    (checkForNewBadges 0 1730764800000
      [⟨"transport", "bus", 5, some 0.445, .timestamp 1730764800⟩]
      { userBadges := ["first-steps"], storedBadges := ["first-steps"],
        badges := BADGES }).userBadges = ["first-steps", "first-steps", "low-carbon"] ∧
    ¬ (checkForNewBadges 0 1730764800000
      [⟨"transport", "bus", 5, some 0.445, .timestamp 1730764800⟩]
      { userBadges := ["first-steps"], storedBadges := ["first-steps"],
        badges := BADGES }).userBadges.Nodup ∧
    (checkForNewBadges 0 1730764800000
      [⟨"transport", "bus", 5, some 0.445, .timestamp 1730764800⟩]
      { userBadges := ["first-steps"], storedBadges := ["first-steps"],
        badges := BADGES }).storedBadges = ["first-steps", "low-carbon"] := by
  have hids := checkBadges_one_bus_ride
  have hlen : (checkBadges 0 1730764800000 BADGES
      [⟨"transport", "bus", 5, some 0.445, .timestamp 1730764800⟩]).1.length > 0 := by
    have := congrArg List.length hids
    rw [List.length_map] at this
    rw [this]
    decide
  have hu : (checkForNewBadges 0 1730764800000
      [⟨"transport", "bus", 5, some 0.445, .timestamp 1730764800⟩]
      { userBadges := ["first-steps"], storedBadges := ["first-steps"],
        badges := BADGES }).userBadges = ["first-steps", "first-steps", "low-carbon"] := by
    unfold checkForNewBadges
    simp only [hlen, if_true, hids]
    rfl
  have hst : (checkForNewBadges 0 1730764800000
      [⟨"transport", "bus", 5, some 0.445, .timestamp 1730764800⟩]
      { userBadges := ["first-steps"], storedBadges := ["first-steps"],
        badges := BADGES }).storedBadges = ["first-steps", "low-carbon"] := by
    unfold checkForNewBadges
    simp only [hlen, if_true, hids]
    decide
  refine ⟨by decide, hu, ?_, hst⟩
  rw [hu]
  decide

end EcoTracker
